import Mathlib

/-!
# Request pipeline and chunked stream writer

A shallow embedding of the request-processing middleware of the service
(`pkg/errors`, `pkg/middleware`) and of the chunked stream writer
(`app/services/helper_service.go`), with the properties of the specification
stated and proved over it.

Conventions of the embedding:

* Go's `error` interface is the type `GoError`; its `nil` value is a constructor.
* A `fiber.Handler` is a function from the request context and the log written
  so far to a `Run`: the context and log it leaves behind and how it completed
  (returned an error value, or panicked).
* A middleware takes the rest of the chain (`c.Next()`) as its `next` argument.
-/

namespace Pipeline

/-! ## Errors (`pkg/errors/errors.go`) -/

/-- A value of Go's `error` interface, by dynamic type: `nil`, a non-nil
`*errors.AppError` (with its three fields), a non-nil `*fiber.Error`, or a value
of any other error type (of which only its text is kept). -/
inductive GoError where
  | nil
  | appError (Code : Int) (Message : String) (Err : GoError)
  | fiberError (Code : Int) (Message : String)
  | other (text : String)
  deriving DecidableEq, Repr

/-- The struct `errors.AppError`. -/
structure AppError where
  Code : Int
  Message : String
  Err : GoError
  deriving DecidableEq, Repr

/-- The struct `fiber.Error`. -/
structure FiberError where
  Code : Int
  Message : String
  deriving DecidableEq, Repr

/-- An `*AppError` seen as an `error`. -/
def AppError.toError (e : AppError) : GoError :=
  GoError.appError e.Code e.Message e.Err

/-- The type assertion `err.(*errors.AppError)`. -/
def GoError.asAppError : GoError → Option AppError
  | GoError.appError code message err => some ⟨code, message, err⟩
  | _ => none

/-- The type assertion `err.(*fiber.Error)`. -/
def GoError.asFiberError : GoError → Option FiberError
  | GoError.fiberError code message => some ⟨code, message⟩
  | _ => none

/-- The constructor `NewAppError(code, message, err)`. -/
def NewAppError (code : Int) (message : String) (err : GoError) : AppError :=
  { Code := code, Message := message, Err := err }

/-- The method `(*AppError).Unwrap`. -/
def AppError.Unwrap (e : AppError) : GoError :=
  e.Err

def StatusBadRequest : Int := 400
def StatusUnauthorized : Int := 401
def StatusPaymentRequired : Int := 402
def StatusForbidden : Int := 403
def StatusNotFound : Int := 404
def StatusTooManyRequests : Int := 429
def StatusInternalServerError : Int := 500
def StatusServiceUnavailable : Int := 503

def ErrInvalidInput : AppError := NewAppError StatusBadRequest "Invalid input" GoError.nil
def ErrUnauthorized : AppError := NewAppError StatusUnauthorized "Unauthorized" GoError.nil
def ErrForbidden : AppError := NewAppError StatusForbidden "Forbidden" GoError.nil
def ErrNotFound : AppError := NewAppError StatusNotFound "Resource not found" GoError.nil
def ErrInternalServer : AppError :=
  NewAppError StatusInternalServerError "Internal server error" GoError.nil
def ErrPaymentRequired : AppError := NewAppError StatusPaymentRequired "Payment required" GoError.nil
def ErrTooManyRequests : AppError := NewAppError StatusTooManyRequests "Too many requests" GoError.nil
def ErrServiceUnavailable : AppError :=
  NewAppError StatusServiceUnavailable "Service unavailable" GoError.nil

/-- The function `Wrap(err, message)`. -/
def Wrap (err : GoError) (message : String) : AppError :=
  match err.asAppError with
  | some appErr => appErr
  | none => NewAppError StatusInternalServerError message err

/-! ## Request context, log and handlers -/

/-- A byte chunk (`[]byte`). -/
abbrev Bytes := List UInt8

/-- A value stored in the request locals (`interface{}`): a string, or a value
of another type. -/
inductive LocalValue where
  | str (s : String)
  | nonString (shown : String)
  deriving DecidableEq, Repr

/-- A value of a `fiber.Map` entry, as far as the handlers here build them. -/
inductive JsonValue where
  | bool (b : Bool)
  | str (s : String)
  | int (n : Int)
  deriving DecidableEq, Repr

/-- The response body: nothing yet, raw text, or the `fiber.Map` handed to
`c.JSON` (its entries in the order of the source literal; a Go map is
unordered). -/
inductive Body where
  | empty
  | text (s : String)
  | json (fields : List (String × JsonValue))
  deriving DecidableEq, Repr

/-- The part of `*fiber.Ctx` the middleware reads and writes: the request line
and client address, the request headers, the request locals, and the response
under construction (the status it goes out with, headers, body, body stream
writer). An installed body stream writer is kept as the chunk sequence its
closure captured. -/
structure Ctx where
  method : String
  path : String
  ip : String
  reqHeaders : List (String × String)
  locals : List (String × LocalValue)
  statusCode : Int
  respHeaders : List (String × String)
  body : Body
  bodyStream : Option (List Bytes)
  deriving DecidableEq, Repr

/-- The call `c.Get(key)`: the value of a request header, the empty string when
the request has no such header. -/
def Ctx.Get (c : Ctx) (key : String) : String :=
  (c.reqHeaders.lookup key).getD ""

/-- The call `c.Set(key, val)`: sets a response header, replacing an earlier value. -/
def Ctx.Set (c : Ctx) (key val : String) : Ctx :=
  { c with respHeaders := (key, val) :: c.respHeaders.filter (fun kv => kv.1 ≠ key) }

/-- The value of a response header, the empty string when it is not set. -/
def Ctx.GetRespHeader (c : Ctx) (key : String) : String :=
  (c.respHeaders.lookup key).getD ""

/-- The call `c.Locals(key)`: the stored value, `none` for Go's nil. -/
def Ctx.Locals (c : Ctx) (key : String) : Option LocalValue :=
  c.locals.lookup key

/-- The call `c.Locals(key, value)`: stores a value. -/
def Ctx.SetLocals (c : Ctx) (key : String) (v : LocalValue) : Ctx :=
  { c with locals := (key, v) :: c.locals.filter (fun kv => kv.1 ≠ key) }

/-- The call `c.Status(status)`, which is fasthttp's `SetStatusCode`. The field
`statusCode` is the status the response goes out with: fasthttp reports a
stored code of 0 as 200 (`ResponseHeader.StatusCode`) and writes the status
line of a negative code with 200, so a code that is not positive gives 200. -/
def Ctx.Status (c : Ctx) (status : Int) : Ctx :=
  { c with statusCode := if status ≤ 0 then 200 else status }

/-- The call `c.JSON(data)` on a map of strings, booleans and integers (whose
encoding cannot fail): the body becomes the encoded map and the content type is
set. -/
def Ctx.JSON (c : Ctx) (data : List (String × JsonValue)) : Ctx :=
  { c.Set "Content-Type" "application/json" with body := Body.json data }

/-- The value a Go `panic` carries: an `error` value (as in `GoError`: nil, or a
non-nil pointer or value of an error type), or a value of a type that does not
implement `error` (kept as its `%v` rendering). -/
inductive PanicValue where
  | error (e : GoError)
  | value (shown : String)
  deriving DecidableEq, Repr

/-- Levels of the zap logger used here. -/
inductive Level where
  | info
  | warn
  | error
  deriving DecidableEq, Repr

/-- A zap field. `zap.Error(nil)` is zap's no-op field `skip`. -/
inductive Field where
  | string (key : String) (val : String)
  | int (key : String) (val : Int)
  | error (key : String) (err : GoError)
  | any (key : String) (val : PanicValue)
  | skip
  deriving DecidableEq, Repr

/-- The call `zap.Error(err)`. -/
def zapError (err : GoError) : Field :=
  match err with
  | GoError.nil => Field.skip
  | e => Field.error "error" e

/-- One structured log entry. -/
structure LogEntry where
  level : Level
  msg : String
  fields : List Field
  deriving DecidableEq, Repr

/-- How a handler call ends. -/
inductive Completion where
  | returned (err : GoError)
  | panicked (v : PanicValue)
  deriving DecidableEq, Repr

/-- The outcome of running a handler. -/
structure Run where
  ctx : Ctx
  log : List LogEntry
  result : Completion
  deriving DecidableEq, Repr

/-- A `fiber.Handler`. -/
abbrev Handler := Ctx → List LogEntry → Run

/-! ## Request correlation (`RequestID`, `GetRequestID`) -/

/-- Modelled from the spec: the accessor `GetRequestID` is not among the source
files. The spec calls it the read accessor of the request identifier for later
stages; `LoggingMiddleware` reads the identifier from the local `"requestID"` as
a string. The model returns that local when it holds a string and the empty
string otherwise. -/
def GetRequestID (c : Ctx) : String :=
  match c.Locals "requestID" with
  | some (LocalValue.str id) => id
  | _ => ""

/-! ## Error normalizer (`pkg/middleware/error_handler.go`) -/

/-- The handler returned by `ErrorHandler(logger)`; `next` is `c.Next()`. -/
def ErrorHandler (next : Handler) : Handler := fun c log =>
  let r := next c log
  match r.result with
  | Completion.panicked v => { ctx := r.ctx, log := r.log, result := Completion.panicked v }
  | Completion.returned err =>
    if err ≠ GoError.nil then
      let c := r.ctx
      let requestID := GetRequestID c
      let fields := [Field.string "path" c.path, Field.string "method" c.method,
        Field.string "requestID" requestID]
      match err.asAppError with
      | some appErr =>
        let fields := fields ++ [Field.int "status" appErr.Code,
          Field.string "message" appErr.Message, zapError appErr.Err]
        { ctx := (c.Status appErr.Code).JSON [("error", JsonValue.bool true),
            ("message", JsonValue.str appErr.Message), ("code", JsonValue.int appErr.Code),
            ("requestID", JsonValue.str requestID)],
          log := r.log ++ [⟨Level.error, "Application error", fields⟩],
          result := Completion.returned GoError.nil }
      | none =>
        match err.asFiberError with
        | some fiberErr =>
          let fields := fields ++ [Field.int "status" fiberErr.Code,
            Field.string "message" fiberErr.Message]
          { ctx := (c.Status fiberErr.Code).JSON [("error", JsonValue.bool true),
              ("message", JsonValue.str fiberErr.Message), ("code", JsonValue.int fiberErr.Code),
              ("requestID", JsonValue.str requestID)],
            log := r.log ++ [⟨Level.error, "Fiber error", fields⟩],
            result := Completion.returned GoError.nil }
        | none =>
          let fields := fields ++ [zapError err]
          { ctx := (c.Status StatusInternalServerError).JSON [("error", JsonValue.bool true),
              ("message", JsonValue.str "Internal server error"),
              ("code", JsonValue.int StatusInternalServerError),
              ("requestID", JsonValue.str requestID)],
            log := r.log ++ [⟨Level.error, "Unknown error", fields⟩],
            result := Completion.returned GoError.nil }
    else
      { ctx := r.ctx, log := r.log, result := Completion.returned GoError.nil }

/-! ## Access guard (`pkg/middleware/auth_middleware.go`) -/

/-- The handler returned by `APIKeyAuth(apiKey, logger)`; `next` is `c.Next()`. -/
def APIKeyAuth (apiKey : String) (next : Handler) : Handler := fun c log =>
  let requestKey := c.Get "x-api-key"
  if requestKey = "" then
    { ctx := c,
      log := log ++ [⟨Level.warn, "Missing API key",
        [Field.string "path" c.path, Field.string "ip" c.ip]⟩],
      result := Completion.returned ErrUnauthorized.toError }
  else if requestKey ≠ apiKey then
    { ctx := c,
      log := log ++ [⟨Level.warn, "Invalid API key",
        [Field.string "path" c.path, Field.string "ip" c.ip]⟩],
      result := Completion.returned ErrUnauthorized.toError }
  else
    next c log

/-! ## Fault isolator (`pkg/middleware/recovery.go`) -/

/-- The error that fiber's `recover` middleware
(`github.com/gofiber/fiber/v2/middleware/recover`) returns for a recovered panic
value `r`: `if err, ok = r.(error); !ok { err = fmt.Errorf("%v", r) }`. A panic
value that is an `error` is returned as it is; any other value becomes a new
error carrying its rendering. (`panic(nil)` reaches `recover` as a
`*runtime.PanicNilError`, an error of another type.) -/
def recoveredError : PanicValue → GoError
  | PanicValue.error GoError.nil =>
    GoError.other "panic called with nil argument (obsolete or corrupted)"
  | PanicValue.error e => e
  | PanicValue.value shown => GoError.other shown

/-- The handler returned by `Recovery(logger)`: fiber's `recover.New` with
`EnableStackTrace` and the `StackTraceHandler` of the source. `next` is
`c.Next()`, run under a deferred `recover()`; on a panic the stack trace handler
logs one entry and the handler returns the recovered error. -/
def Recovery (next : Handler) : Handler := fun c log =>
  let r := next c log
  match r.result with
  | Completion.returned err => { ctx := r.ctx, log := r.log, result := Completion.returned err }
  | Completion.panicked e =>
    let requestID := GetRequestID r.ctx
    { ctx := r.ctx,
      log := r.log ++ [⟨Level.error, "Panic recovered",
        [Field.any "error" e, Field.string "path" r.ctx.path,
         Field.string "method" r.ctx.method, Field.string "requestID" requestID]⟩],
      result := Completion.returned (recoveredError e) }

/-- Modelled from the spec: the name of the inbound correlation header is not
given by the spec or the sources; the response header it names, `X-Request-ID`,
is taken for it. -/
def correlationHeader : String := "X-Request-ID"

/-- Modelled from the spec: the middleware `RequestID` is not among the source
files. Spec, Request Correlator: the identifier is taken from the inbound
correlation header if one is present, otherwise a fresh identifier is generated
(`fresh`, the generator's output for this request); the response header
`X-Request-ID` is set to it; it is exposed to later stages (the local
`"requestID"` that `LoggingMiddleware` reads); then the rest of the chain runs.
A header counts as present when `c.Get` reports a value for it. -/
def RequestID (fresh : String) (next : Handler) : Handler := fun c log =>
  let inbound := c.Get correlationHeader
  let requestID := if inbound = "" then fresh else inbound
  let c := c.Set "X-Request-ID" requestID
  let c := c.SetLocals "requestID" (LocalValue.str requestID)
  next c log

/-! ## Chunked stream writer (`app/services/helper_service.go`) -/

/-- The `*bufio.Writer` handed to a body stream writer, as a state machine: each
operation returns the new state and its error (`GoError.nil` on success). How the
outcome depends on the state and the payload is left to the sink. -/
structure Sink (σ : Type) where
  Write : σ → Bytes → σ × GoError
  Flush : σ → σ × GoError

/-- What the stream writer does, in order: a write of a payload with the error
it got, a flush with the error it got, a `time.Sleep` of so many milliseconds. -/
inductive Event where
  | write (chunk : Bytes) (err : GoError)
  | flush (err : GoError)
  | sleep (ms : Nat)
  deriving DecidableEq, Repr

/-- The closure passed to `SetBodyStreamWriter`: the loop
`for i := 0; i < len(data); i++` over the chunks still to send (`data[i]` is the
head of the list), run on a sink in state `s`. Returns the final sink state and
the events in order. -/
def bodyStreamWriter {σ : Type} (w : Sink σ) : List Bytes → σ → σ × List Event
  | [], s => (s, [])
  | chunk :: rest, s =>
    match w.Write s chunk with
    | (s1, GoError.nil) =>
      match w.Flush s1 with
      | (s2, GoError.nil) =>
        let r := bodyStreamWriter w rest s2
        (r.1, Event.write chunk GoError.nil :: Event.flush GoError.nil :: Event.sleep 500 :: r.2)
      | (s2, err) => (s2, [Event.write chunk GoError.nil, Event.flush err])
    | (s1, err) => (s1, [Event.write chunk err])

/-- The method `HelperService.ChunkData(ctx, data)`: declares chunked transfer,
installs the body stream writer over `data`, and returns `nil`. -/
def ChunkData (ctx : Ctx) (data : List Bytes) : Ctx × GoError :=
  let ctx := ctx.Set "Transfer-Encoding" "chunked"
  ({ ctx with bodyStream := some data }, GoError.nil)

/-- Runs the body stream writer installed in the context on a sink, as the
server does when it sends the response; without one nothing is written. -/
def Ctx.streamBody {σ : Type} (c : Ctx) (w : Sink σ) (s : σ) : σ × List Event :=
  match c.bodyStream with
  | some data => bodyStreamWriter w data s
  | none => (s, [])

/-- The payloads passed to the sink's `Write`, in order. -/
def payloads : List Event → List Bytes
  | [] => []
  | Event.write chunk _ :: rest => chunk :: payloads rest
  | _ :: rest => payloads rest

/-- The events of chunks that are written and flushed without error, each
followed by the pacing sleep. -/
def delivered : List Bytes → List Event
  | [] => []
  | chunk :: rest =>
    Event.write chunk GoError.nil :: Event.flush GoError.nil :: Event.sleep 500 :: delivered rest

/-- The sink state after the chunks are written and flushed in order, `none` as
soon as one of these operations fails. -/
def Sink.accepts {σ : Type} (w : Sink σ) : List Bytes → σ → Option σ
  | [], s => some s
  | chunk :: rest, s =>
    match w.Write s chunk with
    | (s1, GoError.nil) =>
      match w.Flush s1 with
      | (s2, GoError.nil) => w.accepts rest s2
      | _ => none
    | _ => none

/-! ## Request logging (`pkg/middleware/logging_middleware.go`) -/

/-- The handler returned by `LoggingMiddleware(logger)`; `next` is `c.Next()`.
The arguments of `logger.Info` are evaluated first; among them is the type
assertion `c.Locals("requestID").(string)` in its one-value form, which panics
with a `*runtime.TypeAssertionError` (a runtime error) when the local is nil or
holds a value of another type. -/
def LoggingMiddleware (next : Handler) : Handler := fun c log =>
  match c.Locals "requestID" with
  | some (LocalValue.str requestID) =>
    next c (log ++ [⟨Level.info, "HTTP request",
      [Field.string "method" c.method, Field.string "path" c.path,
       Field.string "ip" c.ip, Field.string "requestID" requestID]⟩])
  | some (LocalValue.nonString shown) =>
    { ctx := c, log := log,
      result := Completion.panicked (PanicValue.error (GoError.other
        ("interface conversion: interface \x7b\x7d is " ++ shown ++ ", not string"))) }
  | none =>
    { ctx := c, log := log,
      result := Completion.panicked (PanicValue.error (GoError.other
        "interface conversion: interface \x7b\x7d is nil, not string")) }

/-! ## Configuration (`pkg/config/config.go`) -/

/-- The process environment after `godotenv.Load()`: the variables that are set,
with their values. -/
abbrev Env := List (String × String)

/-- The call `os.Getenv(key)`: the value of the variable, the empty string when
it is not set. -/
def Getenv (env : Env) (key : String) : String :=
  (env.lookup key).getD ""

/-- The struct `ServerConfig` (durations in nanoseconds). -/
structure ServerConfig where
  Port : String
  Host : String
  ReadTimeout : Int
  WriteTimeout : Int
  IdleTimeout : Int
  ShutdownTimeout : Int
  deriving DecidableEq, Repr

/-- The struct `DatabaseConfig`. -/
structure DatabaseConfig where
  DSN : String
  MaxOpenConns : Int
  MaxIdleConns : Int
  ConnMaxLifetime : Int
  deriving DecidableEq, Repr

/-- The struct `AuthConfig`. -/
structure AuthConfig where
  JWTSecret : String
  APIKey : String
  GoogleOAuthClientID : String
  GoogleOAuthSecret : String
  SessionExpiration : Int
  CookieSecure : Bool
  CookieSameSite : String
  deriving DecidableEq, Repr

/-- The struct `AIConfig`. -/
structure AIConfig where
  OpenAIApiKey : String
  ElevenLabsApiKey : String
  UnrealSpeechKey : String
  VertexAIKey : String
  GCloudApiKey : String
  PineconeApiKey : String
  PineconeConnection : String
  deriving DecidableEq, Repr

/-- The struct `CORSConfig`. -/
structure CORSConfig where
  AllowedOrigins : List String
  AllowedHeaders : List String
  AllowedMethods : List String
  deriving DecidableEq, Repr

/-- The struct `Config`. -/
structure Config where
  Server : ServerConfig
  Database : DatabaseConfig
  Auth : AuthConfig
  AI : AIConfig
  CORS : CORSConfig
  deriving DecidableEq, Repr

/-- The method `(*Config).Validate`; each `fmt.Errorf` gives an error of another
type with the given text. -/
def Config.Validate (c : Config) : GoError :=
  if c.Auth.JWTSecret = "" ∨ c.Auth.JWTSecret = "secret" then
    GoError.other "JWT_SECRET must be set and not use default value"
  else if c.Auth.APIKey = "" then
    GoError.other "API_KEY must be set"
  else if c.Database.DSN = "" then
    GoError.other "DSN must be set"
  else
    GoError.nil

/-- The function `getEnv(key, defaultValue)`. -/
def getEnv (env : Env) (key defaultValue : String) : String :=
  if Getenv env key ≠ "" then Getenv env key else defaultValue

/-- The function `getRequiredEnv(key)`: the value, or the panic value (a string,
no error) when the variable is unset or empty. -/
def getRequiredEnv (env : Env) (key : String) : Except PanicValue String :=
  if Getenv env key = "" then
    Except.error (PanicValue.value ("required environment variable " ++ key ++ " is not set"))
  else
    Except.ok (Getenv env key)

/-- The value of a run of decimal digits, most significant first, continuing
from `acc`; `none` when a character is no digit. -/
def parseDigits : List Char → Nat → Option Nat
  | [], acc => some acc
  | ch :: rest, acc =>
    if '0' ≤ ch ∧ ch ≤ '9' then parseDigits rest (acc * 10 + (ch.toNat - '0'.toNat))
    else none

/-- The function `strconv.Atoi` on a platform with 64-bit `int`: an optional
sign, then one or more decimal digits and nothing else; the value has to lie in
`-2^63 .. 2^63 - 1`. `none` stands for a returned error (syntax or range). -/
def Atoi (s : String) : Option Int :=
  let body : Bool × List Char :=
    match s.data with
    | '-' :: rest => (true, rest)
    | '+' :: rest => (false, rest)
    | chars => (false, chars)
  if body.2 = [] then none
  else
    match parseDigits body.2 0 with
    | none => none
    | some v =>
      let n : Int := if body.1 then -(v : Int) else (v : Int)
      if -(2 : Int) ^ 63 ≤ n ∧ n ≤ (2 : Int) ^ 63 - 1 then some n else none

/-- The function `getIntEnv(key, defaultValue)`. -/
def getIntEnv (env : Env) (key : String) (defaultValue : Int) : Int :=
  let value := Getenv env key
  if value = "" then defaultValue
  else
    match Atoi value with
    | none => defaultValue
    | some intValue => intValue

/-- The function `strconv.ParseBool`; `none` stands for a returned error. -/
def ParseBool (s : String) : Option Bool :=
  if s = "1" ∨ s = "t" ∨ s = "T" ∨ s = "TRUE" ∨ s = "true" ∨ s = "True" then some true
  else if s = "0" ∨ s = "f" ∨ s = "F" ∨ s = "FALSE" ∨ s = "false" ∨ s = "False" then some false
  else none

/-- The function `getBoolEnv(key, defaultValue)`. -/
def getBoolEnv (env : Env) (key : String) (defaultValue : Bool) : Bool :=
  let value := Getenv env key
  if value = "" then defaultValue
  else
    match ParseBool value with
    | none => defaultValue
    | some boolValue => boolValue

/-- The function `getDurationEnv(key, defaultValue)`; `time.ParseDuration` is
the parameter `parseDuration` (`none` stands for a returned error). -/
def getDurationEnv (parseDuration : String → Option Int) (env : Env) (key : String)
    (defaultValue : Int) : Int :=
  let value := Getenv env key
  if value = "" then defaultValue
  else
    match parseDuration value with
    | none => defaultValue
    | some duration => duration

/-- The pieces of a character sequence between the occurrences of `sep`; there
is always at least one piece. -/
def splitChars (sep : Char) : List Char → List (List Char)
  | [] => [[]]
  | ch :: rest =>
    if ch = sep then [] :: splitChars sep rest
    else
      match splitChars sep rest with
      | [] => [[ch]]
      | piece :: pieces => (ch :: piece) :: pieces

/-- The call `strings.Split(s, sep)` for a separator of one character, as `Load`
uses it: the substrings between the separators. -/
def Split (s : String) (sep : Char) : List String :=
  (splitChars sep s.data).map String.mk

/-- The constants `time.Second`, `time.Minute`, `time.Hour` in nanoseconds. -/
def Second : Int := 1000000000
def Minute : Int := 60 * Second
def Hour : Int := 60 * Minute

/-- The text of an error, `err.Error()`; for an `*AppError` the method
`(*AppError).Error` of the source. -/
def GoError.Error : GoError → String
  | GoError.nil => "<nil>"
  | GoError.appError _ message GoError.nil => message
  | GoError.appError _ message err => message ++ ": " ++ err.Error
  | GoError.fiberError _ message => message
  | GoError.other text => text

/-- What a call of `Load` ends in: a panic (of `getRequiredEnv`), a returned
error, or a returned configuration. -/
inductive LoadResult where
  | panicked (v : PanicValue)
  | failed (err : GoError)
  | loaded (cfg : Config)
  deriving DecidableEq, Repr

/-- The function `Load()`, on the environment left by `godotenv.Load()`. -/
def Load (parseDuration : String → Option Int) (env : Env) : LoadResult :=
  match getRequiredEnv env "DSN" with
  | Except.error v => LoadResult.panicked v
  | Except.ok dsn =>
    match getRequiredEnv env "JWT_SECRET" with
    | Except.error v => LoadResult.panicked v
    | Except.ok jwtSecret =>
      match getRequiredEnv env "API_KEY" with
      | Except.error v => LoadResult.panicked v
      | Except.ok apiKey =>
        let allowedOrigins := getEnv env "ALLOWED_ORIGINS" "*"
        let cfg : Config :=
          { Server :=
              { Port := getEnv env "PORT" "8080",
                Host := getEnv env "HOST" "0.0.0.0",
                ReadTimeout := getDurationEnv parseDuration env "READ_TIMEOUT" (15 * Second),
                WriteTimeout := getDurationEnv parseDuration env "WRITE_TIMEOUT" (15 * Second),
                IdleTimeout := getDurationEnv parseDuration env "IDLE_TIMEOUT" (60 * Second),
                ShutdownTimeout :=
                  getDurationEnv parseDuration env "SHUTDOWN_TIMEOUT" (10 * Second) },
            Database :=
              { DSN := dsn,
                MaxOpenConns := getIntEnv env "DB_MAX_OPEN_CONNS" 25,
                MaxIdleConns := getIntEnv env "DB_MAX_IDLE_CONNS" 5,
                ConnMaxLifetime :=
                  getDurationEnv parseDuration env "DB_CONN_MAX_LIFETIME" (5 * Minute) },
            Auth :=
              { JWTSecret := jwtSecret,
                APIKey := apiKey,
                GoogleOAuthClientID := getEnv env "GOOGLE_OAUTH_CLIENT_ID" "",
                GoogleOAuthSecret := getEnv env "GOOGLE_OAUTH_CLIENT_SECRET" "",
                SessionExpiration :=
                  getDurationEnv parseDuration env "SESSION_EXPIRATION" (24 * Hour),
                CookieSecure := getBoolEnv env "COOKIE_SECURE" true,
                CookieSameSite := getEnv env "COOKIE_SAME_SITE" "Lax" },
            AI :=
              { OpenAIApiKey := getEnv env "OPEN_AI_API_KEY" "",
                ElevenLabsApiKey := getEnv env "ELEVEN_LABS_API_KEY" "",
                UnrealSpeechKey := getEnv env "UNREAL_SPEECH_API_KEY" "",
                VertexAIKey := getEnv env "VERTEX_AI_API_KEY" "",
                GCloudApiKey := getEnv env "GCLOUD_API_KEY" "",
                PineconeApiKey := getEnv env "PINECONE_API_KEY" "",
                PineconeConnection := getEnv env "PINECONE_CONNECTION" "" },
            CORS :=
              { AllowedOrigins := Split allowedOrigins ',',
                AllowedHeaders := ["Origin", "Content-Type", "Accept", "Authorization",
                  "X-API-KEY", "X-Request-ID"],
                AllowedMethods := ["GET", "POST", "PUT", "DELETE", "OPTIONS", "PATCH"] } }
        match cfg.Validate with
        | GoError.nil => LoadResult.loaded cfg
        | err => LoadResult.failed
            (GoError.other ("configuration validation failed: " ++ err.Error))

/-- The index expression `cfg.CORS.AllowedOrigins[0]` of `setupMiddleware` in
`main.go`: the element, `none` when the index is out of range (a Go panic). -/
def corsAllowOrigins (cfg : Config) : Option String :=
  cfg.CORS.AllowedOrigins[0]?

/-- A write or a flush that returned an error. -/
def Event.failed : Event → Bool
  | Event.write _ err => decide (err ≠ GoError.nil)
  | Event.flush err => decide (err ≠ GoError.nil)
  | Event.sleep _ => false

/-- The character of the decimal digit `d`. -/
def digitChar (d : Nat) : Char := Char.ofNat (48 + d)

/-- The number written by the decimal digits `ds`, most significant first. -/
def decimalValue (ds : List Nat) : Nat :=
  ds.foldl (fun acc d => acc * 10 + d) 0

/-- The decimal numeral with the digits `ds`, with a minus sign when `negative`. -/
def decimalString (negative : Bool) (ds : List Nat) : String :=
  String.mk ((if negative then ['-'] else []) ++ ds.map digitChar)

/-- The integer a decimal numeral stands for. -/
def decimalInt (negative : Bool) (ds : List Nat) : Int :=
  if negative then -(decimalValue ds : Int) else (decimalValue ds : Int)

/-- The key of a zap field (`skip` has none). -/
def Field.key : Field → Option String
  | Field.string key _ => some key
  | Field.int key _ => some key
  | Field.error key _ => some key
  | Field.any key _ => some key
  | Field.skip => none

/-! ## Sample inputs -/

/-- A sink that never fails and keeps what it was given: the bytes written
since the last flush and the payloads flushed so far. -/
def recordingSink : Sink (Bytes × List Bytes) where
  Write := fun s chunk => ((s.1 ++ chunk, s.2), GoError.nil)
  Flush := fun s => (([], s.2 ++ [s.1]), GoError.nil)

/-- A sink on a connection that takes `n` more writes and then is closed: a
write on the closed connection fails, a flush never does. The state is the
number of writes still accepted. -/
def closingSink : Sink Nat where
  Write := fun n _ =>
    match n with
    | 0 => (0, GoError.other "write: broken pipe")
    | m + 1 => (m, GoError.nil)
  Flush := fun n => (n, GoError.nil)


/-- A sink whose writes always succeed and whose flushes succeed `n` times and
fail from then on; the state is the number of flushes still to succeed. -/
def flushFailingSink : Sink Nat where
  Write := fun n _ => (n, GoError.nil)
  Flush := fun n =>
    match n with
    | 0 => (0, GoError.other "flush: connection reset by peer")
    | m + 1 => (m, GoError.nil)

/-- A handler that returns the error value `e` and leaves the context alone. -/
def returning (e : GoError) : Handler := fun c log =>
  { ctx := c, log := log, result := Completion.returned e }

/-- A request `GET /api/users` from `10.0.0.7` with the given headers, whose
request identifier `req-1` has been assigned. -/
def sampleCtx (headers : List (String × String)) : Ctx :=
  { method := "GET", path := "/api/users", ip := "10.0.0.7", reqHeaders := headers,
    locals := [("requestID", LocalValue.str "req-1")], statusCode := 200,
    respHeaders := [("X-Request-ID", "req-1")], body := Body.empty, bodyStream := none }

/-- The error envelope `fiber.Map` of the error normalizer. -/
def errorEnvelope (message : String) (code : Int) (requestID : String) : Body :=
  Body.json [("error", JsonValue.bool true), ("message", JsonValue.str message),
    ("code", JsonValue.int code), ("requestID", JsonValue.str requestID)]

/-! ## Theorems: error normalizer -/

/-- The run of `ErrorHandler` when the rest of the chain returns an `*AppError`. -/
theorem ErrorHandler_run_appError (next : Handler) (c : Ctx) (log : List LogEntry)
    (S : Int) (M : String) (cause : GoError)
    (hnext : (next c log).result = Completion.returned (GoError.appError S M cause)) :
    ErrorHandler next c log =
      { ctx := ((next c log).ctx.Status S).JSON [("error", JsonValue.bool true),
          ("message", JsonValue.str M), ("code", JsonValue.int S),
          ("requestID", JsonValue.str (GetRequestID (next c log).ctx))],
        log := (next c log).log ++ [⟨Level.error, "Application error",
          [Field.string "path" (next c log).ctx.path,
           Field.string "method" (next c log).ctx.method,
           Field.string "requestID" (GetRequestID (next c log).ctx),
           Field.int "status" S, Field.string "message" M, zapError cause]⟩],
        result := Completion.returned GoError.nil } := by
  simp [ErrorHandler, hnext, GoError.asAppError]

/-- The run of `ErrorHandler` when the rest of the chain returns a `*fiber.Error`. -/
theorem ErrorHandler_run_fiberError (next : Handler) (c : Ctx) (log : List LogEntry)
    (S : Int) (M : String)
    (hnext : (next c log).result = Completion.returned (GoError.fiberError S M)) :
    ErrorHandler next c log =
      { ctx := ((next c log).ctx.Status S).JSON [("error", JsonValue.bool true),
          ("message", JsonValue.str M), ("code", JsonValue.int S),
          ("requestID", JsonValue.str (GetRequestID (next c log).ctx))],
        log := (next c log).log ++ [⟨Level.error, "Fiber error",
          [Field.string "path" (next c log).ctx.path,
           Field.string "method" (next c log).ctx.method,
           Field.string "requestID" (GetRequestID (next c log).ctx),
           Field.int "status" S, Field.string "message" M]⟩],
        result := Completion.returned GoError.nil } := by
  simp [ErrorHandler, hnext, GoError.asAppError, GoError.asFiberError]

/-- The run of `ErrorHandler` when the rest of the chain returns a non-nil error
of any other type. -/
theorem ErrorHandler_run_other (next : Handler) (c : Ctx) (log : List LogEntry)
    (err : GoError) (hnext : (next c log).result = Completion.returned err)
    (hnil : err ≠ GoError.nil) (happ : err.asAppError = none)
    (hfib : err.asFiberError = none) :
    ErrorHandler next c log =
      { ctx := ((next c log).ctx.Status 500).JSON [("error", JsonValue.bool true),
          ("message", JsonValue.str "Internal server error"), ("code", JsonValue.int 500),
          ("requestID", JsonValue.str (GetRequestID (next c log).ctx))],
        log := (next c log).log ++ [⟨Level.error, "Unknown error",
          [Field.string "path" (next c log).ctx.path,
           Field.string "method" (next c log).ctx.method,
           Field.string "requestID" (GetRequestID (next c log).ctx), zapError err]⟩],
        result := Completion.returned GoError.nil } := by
  simp [ErrorHandler, hnext, hnil, happ, hfib, StatusInternalServerError]

/-- C2: when the rest of the chain returns a non-nil error that is neither an
`*AppError` nor a `*fiber.Error`, `ErrorHandler` sets the status to 500 and the
body to `error = true`, `message = "Internal server error"`, `code = 500`,
`requestID = r`; a second such error, whatever it is, on the same request
identifier gives the same status and body. -/
theorem ErrorHandler_other (next : Handler) (c : Ctx) (log : List LogEntry)
    (err : GoError) (r : String)
    (hnext : (next c log).result = Completion.returned err)
    (hnil : err ≠ GoError.nil) (happ : err.asAppError = none) (hfib : err.asFiberError = none)
    (hid : GetRequestID (next c log).ctx = r) :
    (ErrorHandler next c log).ctx.statusCode = 500 ∧
    (ErrorHandler next c log).ctx.body = Body.json [("error", JsonValue.bool true),
      ("message", JsonValue.str "Internal server error"), ("code", JsonValue.int 500),
      ("requestID", JsonValue.str r)] ∧
    (ErrorHandler next c log).result = Completion.returned GoError.nil ∧
    ∀ (next2 : Handler) (err2 : GoError),
      (next2 c log).result = Completion.returned err2 →
      err2 ≠ GoError.nil → err2.asAppError = none → err2.asFiberError = none →
      GetRequestID (next2 c log).ctx = r →
      (ErrorHandler next2 c log).ctx.statusCode = (ErrorHandler next c log).ctx.statusCode ∧
      (ErrorHandler next2 c log).ctx.body = (ErrorHandler next c log).ctx.body := by
  have key : ∀ (n : Handler) (e : GoError),
      (n c log).result = Completion.returned e →
      e ≠ GoError.nil → e.asAppError = none → e.asFiberError = none →
      GetRequestID (n c log).ctx = r →
      (ErrorHandler n c log).ctx.statusCode = 500 ∧
      (ErrorHandler n c log).ctx.body = Body.json [("error", JsonValue.bool true),
        ("message", JsonValue.str "Internal server error"), ("code", JsonValue.int 500),
        ("requestID", JsonValue.str r)] ∧
      (ErrorHandler n c log).result = Completion.returned GoError.nil := by
    intro n e hn h0 h1 h2 hr
    rw [ErrorHandler_run_other n c log e hn h0 h1 h2, hr]
    exact ⟨rfl, rfl, rfl⟩
  obtain ⟨h1, h2, h3⟩ := key next err hnext hnil happ hfib hid
  refine ⟨h1, h2, h3, ?_⟩
  intro next2 err2 hn2 k0 k1 k2 hr2
  obtain ⟨g1, g2, _⟩ := key next2 err2 hn2 k0 k1 k2 hr2
  exact ⟨g1.trans h1.symm, g2.trans h2.symm⟩

/-- Witness for C2: a handler returning a plain error with internal detail. -/
theorem ErrorHandler_other_witness :
    (returning (GoError.other "dial tcp 10.1.2.3:3306: refused") (sampleCtx []) []).result
      = Completion.returned (GoError.other "dial tcp 10.1.2.3:3306: refused") ∧
    GoError.other "dial tcp 10.1.2.3:3306: refused" ≠ GoError.nil ∧
    (GoError.other "dial tcp 10.1.2.3:3306: refused").asAppError = none ∧
    (GoError.other "dial tcp 10.1.2.3:3306: refused").asFiberError = none ∧
    (ErrorHandler (returning (GoError.other "dial tcp 10.1.2.3:3306: refused"))
      (sampleCtx []) []).ctx.statusCode = 500 ∧
    (ErrorHandler (returning (GoError.other "dial tcp 10.1.2.3:3306: refused"))
      (sampleCtx []) []).ctx.body = errorEnvelope "Internal server error" 500 "req-1" :=
  have h := ErrorHandler_other (returning (GoError.other "dial tcp 10.1.2.3:3306: refused"))
    (sampleCtx []) [] (GoError.other "dial tcp 10.1.2.3:3306: refused") "req-1" rfl
    (by simp) rfl rfl rfl
  ⟨rfl, by simp, rfl, rfl, h.1, h.2.1⟩

/-- C4 (as amended): for every configured secret `k` and every request. If the
`x-api-key` header is absent, `APIKeyAuth k` returns the unauthorized error
(status 401), leaves the context alone and does not depend on the next handler,
which is not run; if the header is present and not equal to `k`, the same; if
the header is present, not empty and equal to `k`, the outcome is that of the
next handler, unchanged. A header that is present and empty is rejected like an
absent one, whatever `k` is. -/
theorem APIKeyAuth_cases (k : String) (next : Handler) (c : Ctx) (log : List LogEntry) :
    (c.reqHeaders.lookup "x-api-key" = none →
      (APIKeyAuth k next c log).result
        = Completion.returned (GoError.appError 401 "Unauthorized" GoError.nil) ∧
      (APIKeyAuth k next c log).ctx = c ∧
      ∀ next2 : Handler, APIKeyAuth k next2 c log = APIKeyAuth k next c log) ∧
    (∀ v, c.reqHeaders.lookup "x-api-key" = some v → v ≠ k →
      (APIKeyAuth k next c log).result
        = Completion.returned (GoError.appError 401 "Unauthorized" GoError.nil) ∧
      (APIKeyAuth k next c log).ctx = c ∧
      ∀ next2 : Handler, APIKeyAuth k next2 c log = APIKeyAuth k next c log) ∧
    (∀ v, c.reqHeaders.lookup "x-api-key" = some v → v ≠ "" → v = k →
      APIKeyAuth k next c log = next c log) ∧
    (c.reqHeaders.lookup "x-api-key" = some "" →
      (APIKeyAuth k next c log).result
        = Completion.returned (GoError.appError 401 "Unauthorized" GoError.nil) ∧
      (APIKeyAuth k next c log).ctx = c ∧
      ∀ next2 : Handler, APIKeyAuth k next2 c log = APIKeyAuth k next c log) := by
  refine ⟨?_, ?_, ?_, ?_⟩
  · intro h
    have hget : c.Get "x-api-key" = "" := by simp [Ctx.Get, h]
    simp [APIKeyAuth, hget, AppError.toError, ErrUnauthorized, NewAppError, StatusUnauthorized]
  · intro v h hk
    have hget : c.Get "x-api-key" = v := by simp [Ctx.Get, h]
    by_cases hv : v = ""
    · subst hv
      simp [APIKeyAuth, hget, AppError.toError, ErrUnauthorized, NewAppError,
        StatusUnauthorized]
    · simp [APIKeyAuth, hget, hv, hk, AppError.toError, ErrUnauthorized, NewAppError,
        StatusUnauthorized]
  · intro v h hv hk
    have hget : c.Get "x-api-key" = v := by simp [Ctx.Get, h]
    subst hk
    simp [APIKeyAuth, hget, hv]
  · intro h
    have hget : c.Get "x-api-key" = "" := by simp [Ctx.Get, h]
    simp [APIKeyAuth, hget, AppError.toError, ErrUnauthorized, NewAppError, StatusUnauthorized]

/-- Witness for C4 (as amended): the three requests of `TestAPIKeyAuth` against
the secret `test-api-key-12345`, with a next handler that answers with no error. -/
theorem APIKeyAuth_cases_witness :
    ((sampleCtx []).reqHeaders.lookup "x-api-key" = none ∧
      (APIKeyAuth "test-api-key-12345" (returning GoError.nil) (sampleCtx []) []).result
        = Completion.returned (GoError.appError 401 "Unauthorized" GoError.nil)) ∧
    ((sampleCtx [("x-api-key", "wrong-key")]).reqHeaders.lookup "x-api-key" = some "wrong-key" ∧
      "wrong-key" ≠ "test-api-key-12345" ∧
      (APIKeyAuth "test-api-key-12345" (returning GoError.nil)
        (sampleCtx [("x-api-key", "wrong-key")]) []).result
        = Completion.returned (GoError.appError 401 "Unauthorized" GoError.nil)) ∧
    ((sampleCtx [("x-api-key", "test-api-key-12345")]).reqHeaders.lookup "x-api-key"
        = some "test-api-key-12345" ∧
      "test-api-key-12345" ≠ "" ∧
      APIKeyAuth "test-api-key-12345" (returning GoError.nil)
        (sampleCtx [("x-api-key", "test-api-key-12345")]) []
        = returning GoError.nil (sampleCtx [("x-api-key", "test-api-key-12345")]) []) :=
  ⟨⟨by decide,
      ((APIKeyAuth_cases "test-api-key-12345" (returning GoError.nil) (sampleCtx []) []).1
        (by decide)).1⟩,
    ⟨by decide, by decide,
      ((APIKeyAuth_cases "test-api-key-12345" (returning GoError.nil)
        (sampleCtx [("x-api-key", "wrong-key")]) []).2.1 "wrong-key" (by decide)
          (by decide)).1⟩,
    ⟨by decide, by decide,
      (APIKeyAuth_cases "test-api-key-12345" (returning GoError.nil)
        (sampleCtx [("x-api-key", "test-api-key-12345")]) []).2.2.1 "test-api-key-12345"
          (by decide) (by decide) rfl⟩⟩

/-- Counterexample to C4 as stated: with the empty string as configured secret
and a request whose `x-api-key` header is present with the empty value, the
header is exactly equal to the secret, yet the next handler is not run: the
outcome is the unauthorized error after a `Missing API key` warning, not the
outcome of the next handler. -/
theorem APIKeyAuth_rejects_equal_empty_header :
    (sampleCtx [("x-api-key", "")]).reqHeaders.lookup "x-api-key" = some "" ∧
    (APIKeyAuth "" (returning GoError.nil) (sampleCtx [("x-api-key", "")]) []).result
      = Completion.returned (GoError.appError 401 "Unauthorized" GoError.nil) ∧
    (returning GoError.nil (sampleCtx [("x-api-key", "")]) []).result
      = Completion.returned GoError.nil ∧
    APIKeyAuth "" (returning GoError.nil) (sampleCtx [("x-api-key", "")]) []
      ≠ returning GoError.nil (sampleCtx [("x-api-key", "")]) [] := by
  refine ⟨by decide, rfl, rfl, ?_⟩
  decide

/-- C5: with the empty string as configured secret, a request whose `x-api-key`
header is absent or empty is rejected with the unauthorized error (status 401)
after one `Missing API key` warning; the context is left alone and the outcome
does not depend on the next handler, which is not run. -/
theorem APIKeyAuth_empty_secret (next : Handler) (c : Ctx) (log : List LogEntry)
    (h : c.reqHeaders.lookup "x-api-key" = none ∨ c.reqHeaders.lookup "x-api-key" = some "") :
    APIKeyAuth "" next c log =
      { ctx := c,
        log := log ++ [⟨Level.warn, "Missing API key",
          [Field.string "path" c.path, Field.string "ip" c.ip]⟩],
        result := Completion.returned (GoError.appError 401 "Unauthorized" GoError.nil) } ∧
    ∀ next2 : Handler, APIKeyAuth "" next2 c log = APIKeyAuth "" next c log := by
  have hget : c.Get "x-api-key" = "" := by
    rcases h with h | h <;> simp [Ctx.Get, h]
  simp [APIKeyAuth, hget, AppError.toError, ErrUnauthorized, NewAppError, StatusUnauthorized]

/-- Witness for C5: a request that carries an empty `x-api-key` header. -/
theorem APIKeyAuth_empty_secret_witness :
    ((sampleCtx [("x-api-key", "")]).reqHeaders.lookup "x-api-key" = none ∨
      (sampleCtx [("x-api-key", "")]).reqHeaders.lookup "x-api-key" = some "") ∧
    (APIKeyAuth "" (returning GoError.nil) (sampleCtx [("x-api-key", "")]) []).result
      = Completion.returned (GoError.appError 401 "Unauthorized" GoError.nil) :=
  ⟨Or.inr (by decide),
    by rw [(APIKeyAuth_empty_secret (returning GoError.nil) (sampleCtx [("x-api-key", "")]) []
      (Or.inr (by decide))).1]⟩

/-! ## Theorems: chunked stream writer -/

/-- The stream writer on no chunks does nothing. -/
theorem bodyStreamWriter_nil {σ : Type} (w : Sink σ) (s : σ) :
    bodyStreamWriter w [] s = (s, []) := rfl

/-- One iteration of the loop whose write fails. -/
theorem bodyStreamWriter_write_fails {σ : Type} (w : Sink σ) (chunk : Bytes)
    (rest : List Bytes) (s : σ) (h : (w.Write s chunk).2 ≠ GoError.nil) :
    bodyStreamWriter w (chunk :: rest) s
      = ((w.Write s chunk).1, [Event.write chunk (w.Write s chunk).2]) := by
  rcases hW : w.Write s chunk with ⟨s1, e1⟩
  rw [hW] at h
  cases e1 <;> simp_all [bodyStreamWriter]

/-- One iteration of the loop whose write succeeds and whose flush fails. -/
theorem bodyStreamWriter_flush_fails {σ : Type} (w : Sink σ) (chunk : Bytes)
    (rest : List Bytes) (s : σ) (hw : (w.Write s chunk).2 = GoError.nil)
    (hf : (w.Flush (w.Write s chunk).1).2 ≠ GoError.nil) :
    bodyStreamWriter w (chunk :: rest) s
      = ((w.Flush (w.Write s chunk).1).1,
          [Event.write chunk GoError.nil, Event.flush (w.Flush (w.Write s chunk).1).2]) := by
  rcases hW : w.Write s chunk with ⟨s1, e1⟩
  rw [hW] at hw hf
  simp only at hw hf
  subst hw
  rcases hF : w.Flush s1 with ⟨s2, e2⟩
  rw [hF] at hf
  cases e2 <;> simp_all [bodyStreamWriter]

/-- One iteration of the loop whose write and flush succeed: the chunk is
written, flushed, the writer sleeps, and the loop goes on with the next chunk. -/
theorem bodyStreamWriter_step {σ : Type} (w : Sink σ) (chunk : Bytes)
    (rest : List Bytes) (s : σ) (hw : (w.Write s chunk).2 = GoError.nil)
    (hf : (w.Flush (w.Write s chunk).1).2 = GoError.nil) :
    bodyStreamWriter w (chunk :: rest) s
      = ((bodyStreamWriter w rest (w.Flush (w.Write s chunk).1).1).1,
          Event.write chunk GoError.nil :: Event.flush GoError.nil :: Event.sleep 500 ::
            (bodyStreamWriter w rest (w.Flush (w.Write s chunk).1).1).2) := by
  rcases hW : w.Write s chunk with ⟨s1, e1⟩
  rw [hW] at hw hf
  simp only at hw hf
  subst hw
  rcases hF : w.Flush s1 with ⟨s2, e2⟩
  rw [hF] at hf
  simp only at hf
  subst hf
  simp [bodyStreamWriter, hW, hF]

/-- The writer installed by `ChunkData` runs the loop over the given chunks. -/
theorem ChunkData_streamBody {σ : Type} (ctx : Ctx) (data : List Bytes) (w : Sink σ) (s : σ) :
    (ChunkData ctx data).1.streamBody w s = bodyStreamWriter w data s := rfl

/-- On a sink that never fails the loop delivers every chunk, each followed by
the pacing sleep. -/
theorem bodyStreamWriter_all_ok {σ : Type} (w : Sink σ)
    (hW : ∀ s chunk, (w.Write s chunk).2 = GoError.nil)
    (hF : ∀ s, (w.Flush s).2 = GoError.nil) (data : List Bytes) (s : σ) :
    (bodyStreamWriter w data s).2 = delivered data := by
  induction data generalizing s with
  | nil => rfl
  | cons chunk rest ih =>
    rw [bodyStreamWriter_step w chunk rest s (hW _ _) (hF _)]
    simp [delivered, ih]

/-- The payloads of a delivery without failures are the chunks themselves. -/
theorem payloads_delivered (data : List Bytes) : payloads (delivered data) = data := by
  induction data with
  | nil => rfl
  | cons chunk rest ih => simp [delivered, payloads, ih]

/-- When the sink accepts the first chunks, the loop delivers them and goes on
with the remaining chunks from the state the sink is left in. -/
theorem bodyStreamWriter_accepted {σ : Type} (w : Sink σ) (before rest : List Bytes)
    (s0 s1 : σ) (hacc : w.accepts before s0 = some s1) :
    bodyStreamWriter w (before ++ rest) s0
      = ((bodyStreamWriter w rest s1).1, delivered before ++ (bodyStreamWriter w rest s1).2) := by
  induction before generalizing s0 with
  | nil =>
    simp [Sink.accepts] at hacc
    subst hacc
    simp [delivered]
  | cons chunk more ih =>
    rcases hW : w.Write s0 chunk with ⟨t1, e1⟩
    cases e1 <;> simp [Sink.accepts, hW] at hacc
    rcases hF : w.Flush t1 with ⟨t2, e2⟩
    cases e2 <;> simp [hF] at hacc
    have hstep := bodyStreamWriter_step w chunk (more ++ rest) s0 (by rw [hW])
      (by rw [hW]; simp [hF])
    rw [List.cons_append, hstep]
    simp only [hW, hF]
    rw [ih t2 hacc]
    simp [delivered]

/-- C6 (as amended): on a sink whose writes and flushes always succeed, the body
stream writer installed by `ChunkData` produces exactly the events
`write c1, flush, sleep 500, ..., write cn, flush, sleep 500`: every chunk is
written whole and in input order, every write is directly followed by a flush,
and a sleep of 500 ms follows every flush, that of the last chunk included;
`ChunkData` returns no error. -/
theorem ChunkData_trace_reliable_sink {σ : Type} (ctx : Ctx) (data : List Bytes)
    (w : Sink σ) (s : σ)
    (hW : ∀ s chunk, (w.Write s chunk).2 = GoError.nil)
    (hF : ∀ s, (w.Flush s).2 = GoError.nil) :
    ((ChunkData ctx data).1.streamBody w s).2 = delivered data ∧
    payloads ((ChunkData ctx data).1.streamBody w s).2 = data ∧
    (ChunkData ctx data).2 = GoError.nil := by
  rw [ChunkData_streamBody, bodyStreamWriter_all_ok w hW hF data s]
  exact ⟨rfl, payloads_delivered data, rfl⟩

/-- Witness for C6 (as amended): three chunks on the recording sink. -/
theorem ChunkData_trace_reliable_sink_witness :
    (∀ s chunk, (recordingSink.Write s chunk).2 = GoError.nil) ∧
    (∀ s, (recordingSink.Flush s).2 = GoError.nil) ∧
    ((ChunkData (sampleCtx []) [[1, 2], [3], [4, 5]]).1.streamBody recordingSink ([], [])).2
      = delivered [[1, 2], [3], [4, 5]] :=
  ⟨fun _ _ => rfl, fun _ => rfl,
    (ChunkData_trace_reliable_sink (sampleCtx []) [[1, 2], [3], [4, 5]] recordingSink ([], [])
      (fun _ _ => rfl) (fun _ => rfl)).1⟩

/-- Counterexample to C6 as stated: for the chunks `[1, 2]` and `[3]` on a sink
that never fails, the writer does not complete directly after the flush of the
last chunk; the events end with a further sleep of 500 ms. -/
theorem ChunkData_trace_sleeps_after_last_chunk :
    ((ChunkData (sampleCtx []) [[1, 2], [3]]).1.streamBody recordingSink ([], [])).2
      = [Event.write [1, 2] GoError.nil, Event.flush GoError.nil, Event.sleep 500,
         Event.write [3] GoError.nil, Event.flush GoError.nil, Event.sleep 500] ∧
    ((ChunkData (sampleCtx []) [[1, 2], [3]]).1.streamBody recordingSink ([], [])).2
      ≠ [Event.write [1, 2] GoError.nil, Event.flush GoError.nil, Event.sleep 500,
         Event.write [3] GoError.nil, Event.flush GoError.nil] := by
  constructor
  · rfl
  · decide

/-- C7: let the chunks be `before`, then `chunk`, then `after`. If the sink
accepts every write and flush of `before` and then fails the write of `chunk`
(that write is the first sink operation to fail), the writer has written and
flushed the chunks of `before` in order, has tried the write of `chunk`, and
stops there: nothing of `chunk` is flushed, no chunk of `after` is written or
flushed, the writer returns, and `ChunkData` itself returns no error. -/
theorem ChunkData_stops_at_failed_write {σ : Type} (ctx : Ctx) (w : Sink σ)
    (before : List Bytes) (chunk : Bytes) (after : List Bytes) (s0 s1 : σ)
    (hacc : w.accepts before s0 = some s1)
    (hfail : (w.Write s1 chunk).2 ≠ GoError.nil) :
    (ChunkData ctx (before ++ chunk :: after)).1.streamBody w s0
      = ((w.Write s1 chunk).1,
          delivered before ++ [Event.write chunk (w.Write s1 chunk).2]) ∧
    payloads ((ChunkData ctx (before ++ chunk :: after)).1.streamBody w s0).2
      = before ++ [chunk] ∧
    (ChunkData ctx (before ++ chunk :: after)).2 = GoError.nil := by
  have h : (ChunkData ctx (before ++ chunk :: after)).1.streamBody w s0
      = ((w.Write s1 chunk).1,
          delivered before ++ [Event.write chunk (w.Write s1 chunk).2]) := by
    rw [ChunkData_streamBody, bodyStreamWriter_accepted w before (chunk :: after) s0 s1 hacc,
      bodyStreamWriter_write_fails w chunk after s1 hfail]
  refine ⟨h, ?_, rfl⟩
  rw [h]
  have happ : ∀ (l : List Event) (c : Bytes) (e : GoError),
      payloads (l ++ [Event.write c e]) = payloads l ++ [c] := by
    intro l c e
    induction l with
    | nil => rfl
    | cons ev more ih => cases ev <;> simp [payloads, ih]
  simp only [happ, payloads_delivered]

/-- Witness for C7: three chunks on a connection that is closed after the first
write, so that the write of the second chunk is the first operation to fail. -/
theorem ChunkData_stops_at_failed_write_witness :
    closingSink.accepts [[1]] 1 = some 0 ∧
    (closingSink.Write 0 [2]).2 ≠ GoError.nil ∧
    ((ChunkData (sampleCtx []) ([[1]] ++ [2] :: [[3]])).1.streamBody closingSink 1).2
      = [Event.write [1] GoError.nil, Event.flush GoError.nil, Event.sleep 500,
         Event.write [2] (GoError.other "write: broken pipe")] :=
  ⟨rfl, by decide,
    congrArg Prod.snd (ChunkData_stops_at_failed_write (sampleCtx []) closingSink [[1]] [2] [[3]]
      1 0 rfl (by decide)).1⟩

/-- The payloads the loop hands to the sink are the first chunks of the input. -/
theorem payloads_bodyStreamWriter {σ : Type} (w : Sink σ) (data : List Bytes) (s : σ) :
    payloads (bodyStreamWriter w data s).2 <+: data := by
  induction data generalizing s with
  | nil => simp [bodyStreamWriter, payloads]
  | cons chunk rest ih =>
    by_cases hw : (w.Write s chunk).2 = GoError.nil
    · by_cases hf : (w.Flush (w.Write s chunk).1).2 = GoError.nil
      · rw [bodyStreamWriter_step w chunk rest s hw hf]
        simpa [payloads] using ih _
      · rw [bodyStreamWriter_flush_fails w chunk rest s hw hf]
        simp [payloads]
    · rw [bodyStreamWriter_write_fails w chunk rest s hw]
      simp [payloads]

/-- Whatever the sink does, the events before a write of the loop are the
deliveries, without failure, of the chunks before the one written. -/
theorem bodyStreamWriter_before_write {σ : Type} (w : Sink σ) (data : List Bytes) (s : σ)
    (pre : List Event) (c : Bytes) (e : GoError) (post : List Event)
    (h : (bodyStreamWriter w data s).2 = pre ++ Event.write c e :: post) :
    ∃ i, data[i]? = some c ∧ pre = delivered (data.take i) := by
  induction data generalizing s pre with
  | nil =>
    simp [bodyStreamWriter] at h
  | cons chunk rest ih =>
    by_cases hw : (w.Write s chunk).2 = GoError.nil
    · by_cases hf : (w.Flush (w.Write s chunk).1).2 = GoError.nil
      · rw [bodyStreamWriter_step w chunk rest s hw hf] at h
        simp only [List.cons_eq_append_iff] at h
        rcases h with ⟨rfl, h⟩ | ⟨p1, rfl, h⟩
        · simp only [List.cons.injEq, Event.write.injEq] at h
          exact ⟨0, by simp [h.1.1], by simp [delivered]⟩
        · rcases h with ⟨rfl, h⟩ | ⟨p2, rfl, h⟩
          · simp at h
          · rcases h with ⟨rfl, h⟩ | ⟨p3, rfl, h⟩
            · simp at h
            · obtain ⟨i, hi, hp⟩ := ih _ p3 h
              exact ⟨i + 1, by simpa using hi, by simp [delivered, hp]⟩
      · rw [bodyStreamWriter_flush_fails w chunk rest s hw hf] at h
        simp only [List.cons_eq_append_iff] at h
        rcases h with ⟨rfl, h⟩ | ⟨p1, rfl, h⟩
        · simp only [List.cons.injEq, Event.write.injEq] at h
          exact ⟨0, by simp [h.1.1], by simp [delivered]⟩
        · rcases h with ⟨rfl, h⟩ | ⟨p2, rfl, h⟩
          · simp at h
          · simp at h
    · rw [bodyStreamWriter_write_fails w chunk rest s hw] at h
      simp only [List.cons_eq_append_iff] at h
      rcases h with ⟨rfl, h⟩ | ⟨p1, rfl, h⟩
      · simp only [List.cons.injEq, Event.write.injEq] at h
        exact ⟨0, by simp [h.1.1], by simp [delivered]⟩
      · simp at h

/-- Deliveries of consecutive runs of chunks follow one another. -/
theorem delivered_append (a b : List Bytes) :
    delivered (a ++ b) = delivered a ++ delivered b := by
  induction a with
  | nil => rfl
  | cons chunk rest ih => simp [delivered, ih]

/-- C8: for every chunk sequence and every sink, whatever its writes and flushes
return: the payloads passed to `Write`, in order, are a first part of the input
sequence; and for every write of the writer, of a payload `c`, there is a
position `i` with `data[i] = c` such that the events before that write are
exactly the write, the flush (both without error) and the sleep of the chunks
`data[0], ..., data[i-1]` in order, so that for `i > 0` the write is preceded
by the successful write and the successful flush of `data[i-1]`. -/
theorem ChunkData_writes_in_order {σ : Type} (ctx : Ctx) (w : Sink σ) (data : List Bytes)
    (s : σ) :
    payloads ((ChunkData ctx data).1.streamBody w s).2 <+: data ∧
    ∀ (pre : List Event) (c : Bytes) (e : GoError) (post : List Event),
      ((ChunkData ctx data).1.streamBody w s).2 = pre ++ Event.write c e :: post →
      ∃ i, data[i]? = some c ∧ pre = delivered (data.take i) ∧
        (0 < i → ∃ (pre2 : List Event) (c2 : Bytes), data[i - 1]? = some c2 ∧
          pre = pre2 ++ [Event.write c2 GoError.nil, Event.flush GoError.nil,
            Event.sleep 500]) := by
  rw [ChunkData_streamBody]
  refine ⟨payloads_bodyStreamWriter w data s, ?_⟩
  intro pre c e post h
  obtain ⟨i, hi, hp⟩ := bodyStreamWriter_before_write w data s pre c e post h
  refine ⟨i, hi, hp, ?_⟩
  intro hpos
  obtain ⟨j, rfl⟩ : ∃ j, i = j + 1 := ⟨i - 1, by omega⟩
  have hlt : j + 1 < data.length := by
    rcases List.getElem?_eq_some_iff.mp hi with ⟨hlt, _⟩
    exact hlt
  have hj : j < data.length := by omega
  refine ⟨delivered (data.take j), data[j], ?_, ?_⟩
  · simp [List.getElem?_eq_getElem hj]
  · rw [hp, List.take_succ, delivered_append]
    simp [List.getElem?_eq_getElem hj, delivered]

/-- Witness for C8: on a connection closed after the first write, the failed
write of the second chunk comes after the delivery of the first. -/
theorem ChunkData_writes_in_order_witness :
    ((ChunkData (sampleCtx []) [[1], [2], [3]]).1.streamBody closingSink 1).2
      = [Event.write [1] GoError.nil, Event.flush GoError.nil, Event.sleep 500]
          ++ Event.write [2] (GoError.other "write: broken pipe") :: [] ∧
    ∃ i, [[1], [2], [3]][i]? = some ([2] : Bytes) ∧
      [Event.write [1] GoError.nil, Event.flush GoError.nil, Event.sleep 500]
        = delivered (([[1], [2], [3]] : List Bytes).take i) ∧
      (0 < i → ∃ (pre2 : List Event) (c2 : Bytes), [[1], [2], [3]][i - 1]? = some c2 ∧
        [Event.write [1] GoError.nil, Event.flush GoError.nil, Event.sleep 500]
          = pre2 ++ [Event.write c2 GoError.nil, Event.flush GoError.nil, Event.sleep 500]) :=
  ⟨rfl, (ChunkData_writes_in_order (sampleCtx []) closingSink [[1], [2], [3]] 1).2
    [Event.write [1] GoError.nil, Event.flush GoError.nil, Event.sleep 500] [2]
    (GoError.other "write: broken pipe") [] rfl⟩

/-! ## Theorems: fault isolator -/

/-- Setting a response header makes it readable. -/
theorem GetRespHeader_Set_same (c : Ctx) (key val : String) :
    (c.Set key val).GetRespHeader key = val := by
  simp [Ctx.Set, Ctx.GetRespHeader, List.lookup]

/-- Setting a response header leaves the other headers as they are. -/
theorem GetRespHeader_Set_other (c : Ctx) (key val other : String) (h : other ≠ key) :
    (c.Set key val).GetRespHeader other = c.GetRespHeader other := by
  have hl : ∀ l : List (String × String),
      List.lookup other (l.filter (fun kv => !decide (kv.1 = key))) = List.lookup other l := by
    intro l
    induction l with
    | nil => rfl
    | cons kv rest ih =>
      obtain ⟨a, b⟩ := kv
      by_cases hak : a = key
      · subst hak
        have hne : (other == a) = false := by simpa using h
        simp [List.filter, List.lookup, hne, ih]
      · by_cases hoa : other = a
        · subst hoa
          simp [List.filter, hak, List.lookup]
        · have hne : (other == a) = false := by simpa using hoa
          simp [List.filter, hak, List.lookup, hne, ih]
  have hne : (other == key) = false := by simpa using h
  simp [Ctx.Set, Ctx.GetRespHeader, List.lookup, hne, hl]

/-- Storing a string local makes it the request identifier read by `GetRequestID`. -/
theorem GetRequestID_SetLocals (c : Ctx) (id : String) :
    GetRequestID (c.SetLocals "requestID" (LocalValue.str id)) = id := by
  simp [GetRequestID, Ctx.SetLocals, Ctx.Locals, List.lookup]

/-- The error normalizer leaves the `X-Request-ID` response header as the rest
of the chain left it. -/
theorem ErrorHandler_keeps_request_id_header (next : Handler) (c : Ctx) (log : List LogEntry) :
    (ErrorHandler next c log).ctx.GetRespHeader "X-Request-ID"
      = (next c log).ctx.GetRespHeader "X-Request-ID" := by
  have hjson : ∀ (x : Ctx) (code : Int) (data : List (String × JsonValue)),
      ((x.Status code).JSON data).GetRespHeader "X-Request-ID"
        = x.GetRespHeader "X-Request-ID" := by
    intro x code data
    have h := GetRespHeader_Set_other (x.Status code) "Content-Type" "application/json"
      "X-Request-ID" (by decide)
    simpa [Ctx.JSON, Ctx.GetRespHeader, Ctx.Status] using h
  cases hres : (next c log).result with
  | panicked v => simp [ErrorHandler, hres]
  | returned err =>
    cases err with
    | nil => simp [ErrorHandler, hres]
    | appError S M cause => rw [ErrorHandler_run_appError next c log S M cause hres, hjson]
    | fiberError S M => rw [ErrorHandler_run_fiberError next c log S M hres, hjson]
    | other text =>
      rw [ErrorHandler_run_other next c log (GoError.other text) hres (by simp) rfl rfl, hjson]

/-- The fault isolator leaves the context as the rest of the chain left it. -/
theorem Recovery_ctx (next : Handler) (c : Ctx) (log : List LogEntry) :
    (Recovery next c log).ctx = (next c log).ctx := by
  cases hres : (next c log).result <;> simp [Recovery, hres]

/-- C10: for every request passing through `RequestID` (with a generator whose
identifiers are non-empty and later stages that do not overwrite the response
header), whether the rest of the chain succeeds, returns an error or panics:
there is a non-empty identifier `id` that later stages read through
`GetRequestID`, the response that leaves the pipeline (after `Recovery` and the
error normalizer) carries `X-Request-ID = id`, and if the request supplied an
inbound correlation header (`c.Get` reports a non-empty value for it), `id` is
the supplied value. -/
theorem RequestID_response_header (fresh : String) (next : Handler) (c : Ctx)
    (log : List LogEntry) (hfresh : fresh ≠ "")
    (hkeep : ∀ c1 log1, (next c1 log1).ctx.GetRespHeader "X-Request-ID"
      = c1.GetRespHeader "X-Request-ID") :
    ∃ (id : String) (c1 : Ctx), id ≠ "" ∧
      RequestID fresh next c log = next c1 log ∧
      GetRequestID c1 = id ∧
      (ErrorHandler (Recovery (RequestID fresh next)) c log).ctx.GetRespHeader "X-Request-ID"
        = id ∧
      (c.Get correlationHeader ≠ "" → id = c.Get correlationHeader) := by
  refine ⟨if c.Get correlationHeader = "" then fresh else c.Get correlationHeader,
    (c.Set "X-Request-ID" (if c.Get correlationHeader = "" then fresh
      else c.Get correlationHeader)).SetLocals "requestID"
      (LocalValue.str (if c.Get correlationHeader = "" then fresh
        else c.Get correlationHeader)), ?_, rfl, GetRequestID_SetLocals _ _, ?_, ?_⟩
  · by_cases h : c.Get correlationHeader = "" <;> simp [h, hfresh]
  · rw [ErrorHandler_keeps_request_id_header, Recovery_ctx]
    show (next _ log).ctx.GetRespHeader "X-Request-ID" = _
    rw [hkeep]
    exact GetRespHeader_Set_same c _ _
  · intro h
    simp [h]

/-- Witness for C10: a request that supplies `trace-42` and is rejected by the
access guard (the failure path). -/
theorem RequestID_response_header_witness :
    ("generated-id" ≠ "") ∧
    (ErrorHandler (Recovery (RequestID "generated-id" (APIKeyAuth "k" (returning GoError.nil))))
      (sampleCtx [("X-Request-ID", "trace-42")]) []).ctx.GetRespHeader "X-Request-ID"
      = "trace-42" ∧
    ∃ (id : String) (c1 : Ctx), id ≠ "" ∧
      RequestID "generated-id" (APIKeyAuth "k" (returning GoError.nil))
        (sampleCtx [("X-Request-ID", "trace-42")]) []
        = APIKeyAuth "k" (returning GoError.nil) c1 [] ∧
      GetRequestID c1 = id ∧
      (ErrorHandler (Recovery (RequestID "generated-id" (APIKeyAuth "k" (returning GoError.nil))))
        (sampleCtx [("X-Request-ID", "trace-42")]) []).ctx.GetRespHeader "X-Request-ID" = id ∧
      ((sampleCtx [("X-Request-ID", "trace-42")]).Get correlationHeader ≠ "" →
        id = (sampleCtx [("X-Request-ID", "trace-42")]).Get correlationHeader) :=
  ⟨by decide, by decide,
    RequestID_response_header "generated-id" (APIKeyAuth "k" (returning GoError.nil))
      (sampleCtx [("X-Request-ID", "trace-42")]) [] (by decide) (by
        intro c1 log1
        by_cases h1 : c1.Get "x-api-key" = ""
        · simp [APIKeyAuth, h1]
        · by_cases h2 : c1.Get "x-api-key" = "k"
          · simp [APIKeyAuth, h2, returning]
          · simp [APIKeyAuth, h1, h2])⟩


/-! ## Theorems: errors and configuration -/

/-- A digit character is read back as its digit. -/
theorem parseDigits_digitChar (d : Nat) (hd : d < 10) (rest : List Char) (acc : Nat) :
    parseDigits (digitChar d :: rest) acc = parseDigits rest (acc * 10 + d) := by
  interval_cases d <;> simp [parseDigits, digitChar]

/-- A run of digit characters is read as the number it writes. -/
theorem parseDigits_map_digitChar (ds : List Nat) (hds : ∀ d ∈ ds, d < 10) (acc : Nat) :
    parseDigits (ds.map digitChar) acc = some (ds.foldl (fun a d => a * 10 + d) acc) := by
  induction ds generalizing acc with
  | nil => rfl
  | cons d rest ih =>
    rw [List.map_cons, parseDigits_digitChar d (hds d (by simp)) _ acc]
    rw [ih (fun x hx => hds x (by simp [hx]))]
    rfl

/-- `Atoi` reads a decimal numeral within the range of `int` as its integer. -/
theorem Atoi_decimalString (negative : Bool) (ds : List Nat) (hne : ds ≠ [])
    (hds : ∀ d ∈ ds, d < 10)
    (hrange : -(2 : Int) ^ 63 ≤ decimalInt negative ds ∧ decimalInt negative ds ≤ (2 : Int) ^ 63 - 1) :
    Atoi (decimalString negative ds) = some (decimalInt negative ds) := by
  have hp := parseDigits_map_digitChar ds hds 0
  obtain ⟨d, rest, rfl⟩ : ∃ d rest, ds = d :: rest := by
    cases ds with
    | nil => exact absurd rfl hne
    | cons d rest => exact ⟨d, rest, rfl⟩
  have hd : d < 10 := hds d (by simp)
  cases negative with
  | true =>
    simp only [Atoi, decimalString, if_true, List.singleton_append]
    simp only [List.map_cons] at hp ⊢
    simp [hp, decimalInt, decimalValue] at hrange ⊢
    exact hrange
  | false =>
    simp only [decimalString, Bool.false_eq_true, if_false, List.nil_append, List.map_cons]
    simp only [List.map_cons] at hp
    interval_cases d <;> simp [Atoi, digitChar] <;> simp [digitChar] at hp <;>
      simp [hp, decimalInt, decimalValue] at hrange ⊢ <;> exact hrange


/-- C11: for every error `e` and message `m`. If `e` is an `*AppError`, `Wrap`
returns that `AppError` with its code, message and cause, whatever `m` is;
otherwise (the nil error included) it returns an `AppError` with code 500,
message `m` and cause `e`. What `Wrap` returns is never the nil error, and
wrapping it again with any message gives it back:
`Wrap(Wrap(e, m), m2) = Wrap(e, m)`. -/
theorem Wrap_cases (e : GoError) (m m2 : String) :
    (∀ a : AppError, e.asAppError = some a → Wrap e m = a ∧ (Wrap e m).toError = e) ∧
    (e.asAppError = none → Wrap e m = { Code := 500, Message := m, Err := e }) ∧
    (Wrap e m).toError ≠ GoError.nil ∧
    Wrap (Wrap e m).toError m2 = Wrap e m := by
  refine ⟨?_, ?_, ?_, ?_⟩
  · intro a ha
    cases e <;> simp [GoError.asAppError] at ha
    subst ha
    exact ⟨rfl, rfl⟩
  · intro h
    simp [Wrap, h, NewAppError, StatusInternalServerError]
  · simp [AppError.toError]
  · simp [Wrap, AppError.toError, GoError.asAppError]

/-- Witness for C11: the two cases of `TestWrap`, a plain error and an
`*AppError`. -/
theorem Wrap_cases_witness :
    (GoError.appError 400 "app error" GoError.nil).asAppError
      = some (NewAppError 400 "app error" GoError.nil) ∧
    Wrap (GoError.appError 400 "app error" GoError.nil) "new message"
      = NewAppError 400 "app error" GoError.nil ∧
    (GoError.other "underlying").asAppError = none ∧
    Wrap (GoError.other "underlying") "wrapped message"
      = { Code := 500, Message := "wrapped message", Err := GoError.other "underlying" } :=
  ⟨rfl,
    ((Wrap_cases (GoError.appError 400 "app error" GoError.nil) "new message" "").1
      (NewAppError 400 "app error" GoError.nil) rfl).1,
    rfl,
    (Wrap_cases (GoError.other "underlying") "wrapped message" "").2.1 rfl⟩

/-- C12: for every `Config`, `Validate` returns an error exactly when the JWT
secret is empty or `"secret"`, or the API key is empty, or the DSN is empty; so
a `Config` that `Validate` accepts has a non-empty API key. -/
theorem Validate_iff (c : Config) :
    (c.Validate ≠ GoError.nil ↔
      (c.Auth.JWTSecret = "" ∨ c.Auth.JWTSecret = "secret") ∨ c.Auth.APIKey = "" ∨
        c.Database.DSN = "") ∧
    (c.Validate = GoError.nil → c.Auth.APIKey ≠ "") := by
  have h : c.Validate ≠ GoError.nil ↔
      (c.Auth.JWTSecret = "" ∨ c.Auth.JWTSecret = "secret") ∨ c.Auth.APIKey = "" ∨
        c.Database.DSN = "" := by
    unfold Config.Validate
    by_cases h1 : c.Auth.JWTSecret = "" ∨ c.Auth.JWTSecret = "secret"
    · simp [h1]
    · by_cases h2 : c.Auth.APIKey = ""
      · simp [h1, h2]
      · by_cases h3 : c.Database.DSN = ""
        · simp [h1, h2, h3]
        · simp [h1, h2, h3]
  refine ⟨h, ?_⟩
  intro hv hk
  exact (h.mpr (Or.inr (Or.inl hk))) hv

/-- Witness for C12: the valid configuration that `Load` builds from the three
required variables. -/
theorem Validate_iff_witness :
    ∃ cfg, Load (fun _ => none) [("DSN", "test:test@tcp(localhost:3306)/test"),
        ("JWT_SECRET", "valid-secret-key"), ("API_KEY", "valid-api-key")]
      = LoadResult.loaded cfg ∧
    cfg.Validate = GoError.nil ∧ cfg.Auth.APIKey ≠ "" :=
  ⟨_, rfl, rfl, (Validate_iff _).2 rfl⟩

/-- C13: for every code `c`, message `m` and cause `e`, `NewAppError(c, m, e)`
stores `c`, `m` and `e` unchanged, its `Unwrap()` returns `e`, and the
`Unwrap()` of `NewAppError(c, m, nil)` returns nil. -/
theorem NewAppError_Unwrap (c : Int) (m : String) (e : GoError) :
    (NewAppError c m e).Unwrap = e ∧
    (NewAppError c m GoError.nil).Unwrap = GoError.nil ∧
    (NewAppError c m e).Code = c ∧
    (NewAppError c m e).Message = m ∧
    (NewAppError c m e).Err = e :=
  ⟨rfl, rfl, rfl, rfl, rfl⟩

/-- C14: for every environment, key and default `d`. When the variable is set
to a string that `strconv.Atoi` parses as `n`, `getIntEnv` returns `n`; in
particular when it is set to a decimal numeral (an optional minus sign and
digits) of an integer in the range of `int`, `getIntEnv` returns that integer.
When the variable is unset, or empty, or set to a string that `Atoi` rejects,
`getIntEnv` returns `d`. -/
theorem getIntEnv_cases (env : Env) (key : String) (d : Int) :
    (∀ n, Atoi (Getenv env key) = some n → getIntEnv env key d = n) ∧
    (∀ (negative : Bool) (ds : List Nat), ds ≠ [] → (∀ x ∈ ds, x < 10) →
      -(2 : Int) ^ 63 ≤ decimalInt negative ds → decimalInt negative ds ≤ (2 : Int) ^ 63 - 1 →
      env.lookup key = some (decimalString negative ds) →
      getIntEnv env key d = decimalInt negative ds) ∧
    (env.lookup key = none → getIntEnv env key d = d) ∧
    (env.lookup key = some "" → getIntEnv env key d = d) ∧
    (Atoi (Getenv env key) = none → getIntEnv env key d = d) := by
  have hsome : ∀ n, Atoi (Getenv env key) = some n → getIntEnv env key d = n := by
    intro n h
    have hne : Getenv env key ≠ "" := by
      intro h0
      rw [h0] at h
      have hempty : Atoi "" = none := by decide
      rw [hempty] at h
      exact Option.noConfusion h
    simp [getIntEnv, hne, h]
  refine ⟨hsome, ?_, ?_, ?_, ?_⟩
  · intro negative ds hne hds h1 h2 hset
    apply hsome
    have hget : Getenv env key = decimalString negative ds := by simp [Getenv, hset]
    rw [hget]
    exact Atoi_decimalString negative ds hne hds ⟨h1, h2⟩
  · intro h
    simp [getIntEnv, Getenv, h]
  · intro h
    simp [getIntEnv, Getenv, h]
  · intro h
    by_cases h0 : Getenv env key = ""
    · simp [getIntEnv, h0]
    · simp [getIntEnv, h0, h]

/-- Witness for C14: the three cases of `TestGetIntEnv`. -/
theorem getIntEnv_cases_witness :
    (Atoi (Getenv [("TEST_INT", "42"), ("INVALID_INT", "not-a-number")] "TEST_INT") = some 42 ∧
      getIntEnv [("TEST_INT", "42"), ("INVALID_INT", "not-a-number")] "TEST_INT" 0 = 42) ∧
    (List.lookup "NONEXISTENT" [("TEST_INT", "42"), ("INVALID_INT", "not-a-number")] = none ∧
      getIntEnv [("TEST_INT", "42"), ("INVALID_INT", "not-a-number")] "NONEXISTENT" 10 = 10) ∧
    (Atoi (Getenv [("TEST_INT", "42"), ("INVALID_INT", "not-a-number")] "INVALID_INT") = none ∧
      getIntEnv [("TEST_INT", "42"), ("INVALID_INT", "not-a-number")] "INVALID_INT" 99 = 99) ∧
    (List.lookup "N" [("N", decimalString true [1, 2])] = some (decimalString true [1, 2]) ∧
      getIntEnv [("N", decimalString true [1, 2])] "N" 0 = -12) :=
  ⟨⟨by decide,
      (getIntEnv_cases [("TEST_INT", "42"), ("INVALID_INT", "not-a-number")] "TEST_INT" 0).1 42
        (by decide)⟩,
    ⟨by decide,
      (getIntEnv_cases [("TEST_INT", "42"), ("INVALID_INT", "not-a-number")] "NONEXISTENT"
        10).2.2.1 (by decide)⟩,
    ⟨by decide,
      (getIntEnv_cases [("TEST_INT", "42"), ("INVALID_INT", "not-a-number")] "INVALID_INT"
        99).2.2.2.2 (by decide)⟩,
    ⟨by decide,
      (getIntEnv_cases [("N", decimalString true [1, 2])] "N" 0).2.1 true [1, 2] (by decide)
        (by decide) (by decide) (by decide) (by decide)⟩⟩


/-! ## Theorems: log entries of the error normalizer -/

/-- C15 (as amended): for every non-nil error that the rest of the chain
returns, `ErrorHandler` adds exactly one log entry, at level error, and that
entry contains the path, the method and the request identifier. For an
`*AppError` and for a `*fiber.Error` it also contains the resolved status and
the resolved message. For any other error it contains the underlying error
value, and no field named `status` or `message`. -/
theorem ErrorHandler_log_entry (next : Handler) (c : Ctx) (log : List LogEntry)
    (err : GoError) (hnext : (next c log).result = Completion.returned err)
    (hnil : err ≠ GoError.nil) :
    ∃ entry : LogEntry,
      (ErrorHandler next c log).log = (next c log).log ++ [entry] ∧
      entry.level = Level.error ∧
      Field.string "path" (next c log).ctx.path ∈ entry.fields ∧
      Field.string "method" (next c log).ctx.method ∈ entry.fields ∧
      Field.string "requestID" (GetRequestID (next c log).ctx) ∈ entry.fields ∧
      (∀ S M, (∃ cause, err = GoError.appError S M cause) ∨ err = GoError.fiberError S M →
        Field.int "status" S ∈ entry.fields ∧ Field.string "message" M ∈ entry.fields) ∧
      (err.asAppError = none → err.asFiberError = none →
        Field.error "error" err ∈ entry.fields ∧
        ∀ f ∈ entry.fields, f.key ≠ some "status" ∧ f.key ≠ some "message") := by
  cases err with
  | nil => exact absurd rfl hnil
  | appError S M cause =>
    refine ⟨_, by rw [ErrorHandler_run_appError next c log S M cause hnext], rfl, ?_, ?_, ?_,
      ?_, ?_⟩
    · simp
    · simp
    · simp
    · intro S2 M2 h
      rcases h with ⟨cause2, h⟩ | h
      · cases h
        simp
      · cases h
    · intro h
      simp [GoError.asAppError] at h
  | fiberError S M =>
    refine ⟨_, by rw [ErrorHandler_run_fiberError next c log S M hnext], rfl, ?_, ?_, ?_,
      ?_, ?_⟩
    · simp
    · simp
    · simp
    · intro S2 M2 h
      rcases h with ⟨cause2, h⟩ | h
      · cases h
      · cases h
        simp
    · intro _ h
      simp [GoError.asFiberError] at h
  | other text =>
    refine ⟨_, by rw [ErrorHandler_run_other next c log (GoError.other text) hnext hnil rfl
      rfl], rfl, ?_, ?_, ?_, ?_, ?_⟩
    · simp
    · simp
    · simp
    · intro S2 M2 h
      rcases h with ⟨cause2, h⟩ | h
      · cases h
      · cases h
    · intro _ _
      refine ⟨by simp [zapError], ?_⟩
      intro f hf
      simp only [zapError, List.mem_cons, List.mem_singleton, List.not_mem_nil, or_false] at hf
      rcases hf with rfl | rfl | rfl | rfl <;> simp [Field.key]

/-- Witness for C15 (as amended): a handler returning a 404 `*AppError`. -/
theorem ErrorHandler_log_entry_witness :
    (returning ErrNotFound.toError (sampleCtx []) []).result
      = Completion.returned ErrNotFound.toError ∧
    ErrNotFound.toError ≠ GoError.nil ∧
    ∃ entry : LogEntry,
      (ErrorHandler (returning ErrNotFound.toError) (sampleCtx []) []).log = [] ++ [entry] ∧
      Field.int "status" 404 ∈ entry.fields ∧
      Field.string "message" "Resource not found" ∈ entry.fields := by
  refine ⟨rfl, by decide, ?_⟩
  obtain ⟨entry, h1, _, _, _, _, h6, _⟩ :=
    ErrorHandler_log_entry (returning ErrNotFound.toError) (sampleCtx []) []
      ErrNotFound.toError rfl (by decide)
  exact ⟨entry, h1, h6 404 "Resource not found" (Or.inl ⟨GoError.nil, rfl⟩)⟩

/-- Counterexample to C15 as stated: for a handler that returns a plain error
the one entry that `ErrorHandler` logs has the fields path, method, request
identifier and error; the resolved status 500 and the resolved message
`Internal server error` are not among them. -/
theorem ErrorHandler_unknown_entry_lacks_status :
    (ErrorHandler (returning (GoError.other "boom")) (sampleCtx []) []).log
      = [⟨Level.error, "Unknown error",
          [Field.string "path" "/api/users", Field.string "method" "GET",
           Field.string "requestID" "req-1", Field.error "error" (GoError.other "boom")]⟩] ∧
    (∀ entry ∈ (ErrorHandler (returning (GoError.other "boom")) (sampleCtx []) []).log,
      Field.int "status" 500 ∉ entry.fields ∧
      Field.string "message" "Internal server error" ∉ entry.fields ∧
      ∀ f ∈ entry.fields, f.key ≠ some "status" ∧ f.key ≠ some "message") := by
  refine ⟨rfl, ?_⟩
  decide


/-! ## Theorems: the stream writer after a failure -/

/-- Whatever the sink does, a failed write or flush is the last event of the
loop. -/
theorem bodyStreamWriter_failed_last {σ : Type} (w : Sink σ) (data : List Bytes) (s : σ)
    (pre : List Event) (ev : Event) (post : List Event)
    (h : (bodyStreamWriter w data s).2 = pre ++ ev :: post) (hev : ev.failed = true) :
    post = [] := by
  induction data generalizing s pre with
  | nil =>
    simp [bodyStreamWriter] at h
  | cons chunk rest ih =>
    by_cases hw : (w.Write s chunk).2 = GoError.nil
    · by_cases hf : (w.Flush (w.Write s chunk).1).2 = GoError.nil
      · rw [bodyStreamWriter_step w chunk rest s hw hf] at h
        simp only [List.cons_eq_append_iff] at h
        rcases h with ⟨rfl, h⟩ | ⟨p1, rfl, h⟩
        · simp only [List.cons.injEq] at h
          rw [h.1] at hev
          simp [Event.failed] at hev
        · rcases h with ⟨rfl, h⟩ | ⟨p2, rfl, h⟩
          · simp only [List.cons.injEq] at h
            rw [h.1] at hev
            simp [Event.failed] at hev
          · rcases h with ⟨rfl, h⟩ | ⟨p3, rfl, h⟩
            · simp only [List.cons.injEq] at h
              rw [h.1] at hev
              simp [Event.failed] at hev
            · exact ih _ p3 h
      · rw [bodyStreamWriter_flush_fails w chunk rest s hw hf] at h
        simp only [List.cons_eq_append_iff] at h
        rcases h with ⟨rfl, h⟩ | ⟨p1, rfl, h⟩
        · simp only [List.cons.injEq] at h
          rw [h.1] at hev
          simp [Event.failed] at hev
        · rcases h with ⟨rfl, h⟩ | ⟨p2, rfl, h⟩
          · simp only [List.cons.injEq] at h
            exact h.2
          · simp at h
    · rw [bodyStreamWriter_write_fails w chunk rest s hw] at h
      simp only [List.cons_eq_append_iff] at h
      rcases h with ⟨rfl, h⟩ | ⟨p1, rfl, h⟩
      · simp only [List.cons.injEq] at h
        exact h.2
      · simp at h

/-- The loop produces at most three events for each chunk. -/
theorem bodyStreamWriter_length {σ : Type} (w : Sink σ) (data : List Bytes) (s : σ) :
    (bodyStreamWriter w data s).2.length ≤ 3 * data.length := by
  induction data generalizing s with
  | nil => simp [bodyStreamWriter]
  | cons chunk rest ih =>
    by_cases hw : (w.Write s chunk).2 = GoError.nil
    · by_cases hf : (w.Flush (w.Write s chunk).1).2 = GoError.nil
      · rw [bodyStreamWriter_step w chunk rest s hw hf]
        have := ih (w.Flush (w.Write s chunk).1).1
        simp only [List.length_cons]
        omega
      · rw [bodyStreamWriter_flush_fails w chunk rest s hw hf]
        simp only [List.length_cons, List.length_nil]
        omega
    · rw [bodyStreamWriter_write_fails w chunk rest s hw]
      simp only [List.length_cons, List.length_nil]
      omega

/-- A delivery without failures has three events for each chunk. -/
theorem delivered_length (data : List Bytes) : (delivered data).length = 3 * data.length := by
  induction data with
  | nil => rfl
  | cons chunk rest ih =>
    simp only [delivered, List.length_cons, ih]
    omega

/-- C16: for every chunk sequence and every sink. A write or a flush that
failed is the last event of the stream writer: no sink operation and no sleep
follows it (after a failed flush of a chunk neither the sleep nor the write of
the next chunk). And once every chunk has been delivered (written, flushed and
paced), no event follows: the sink is not touched again. -/
theorem ChunkData_stops_after_failure {σ : Type} (ctx : Ctx) (w : Sink σ) (data : List Bytes)
    (s : σ) :
    (∀ (pre : List Event) (chunk : Bytes) (err : GoError) (post : List Event),
      ((ChunkData ctx data).1.streamBody w s).2 = pre ++ Event.write chunk err :: post →
      err ≠ GoError.nil → post = []) ∧
    (∀ (pre : List Event) (err : GoError) (post : List Event),
      ((ChunkData ctx data).1.streamBody w s).2 = pre ++ Event.flush err :: post →
      err ≠ GoError.nil → post = []) ∧
    (∀ (post : List Event),
      ((ChunkData ctx data).1.streamBody w s).2 = delivered data ++ post → post = []) := by
  rw [ChunkData_streamBody]
  refine ⟨?_, ?_, ?_⟩
  · intro pre chunk err post h herr
    exact bodyStreamWriter_failed_last w data s pre _ post h (by simp [Event.failed, herr])
  · intro pre err post h herr
    exact bodyStreamWriter_failed_last w data s pre _ post h (by simp [Event.failed, herr])
  · intro post h
    have hlen := bodyStreamWriter_length w data s
    rw [h, List.length_append, delivered_length] at hlen
    exact List.eq_nil_of_length_eq_zero (by omega)

/-- Witness for C16: three chunks on a sink whose second flush fails; the failed
flush of the second chunk is the last event. -/
theorem ChunkData_stops_after_failure_witness :
    ((ChunkData (sampleCtx []) [[1], [2], [3]]).1.streamBody flushFailingSink 1).2
      = [Event.write [1] GoError.nil, Event.flush GoError.nil, Event.sleep 500,
         Event.write [2] GoError.nil]
        ++ Event.flush (GoError.other "flush: connection reset by peer") :: [] ∧
    GoError.other "flush: connection reset by peer" ≠ GoError.nil ∧
    ([] : List Event) = [] :=
  ⟨rfl, by decide,
    ((ChunkData_stops_after_failure (sampleCtx []) flushFailingSink [[1], [2], [3]] 1).2.1
      [Event.write [1] GoError.nil, Event.flush GoError.nil, Event.sleep 500,
        Event.write [2] GoError.nil]
      (GoError.other "flush: connection reset by peer") [] rfl (by decide)).symm⟩


/-! ## Theorems: the warning of the access guard -/

/-- C17: whenever `APIKeyAuth k` rejects a request (the `x-api-key` value that
fiber reports is empty or differs from `k`), it adds exactly one log entry, a
warning whose fields are exactly the request path and the client address; and
for two secrets that both reject the same request the logs are the same, so
the entry does not depend on the secret. -/
theorem APIKeyAuth_warning (k : String) (next : Handler) (c : Ctx) (log : List LogEntry)
    (hrej : c.Get "x-api-key" = "" ∨ c.Get "x-api-key" ≠ k) :
    (∃ msg : String, (APIKeyAuth k next c log).log
      = log ++ [⟨Level.warn, msg, [Field.string "path" c.path, Field.string "ip" c.ip]⟩]) ∧
    ∀ (k2 : String) (next2 : Handler),
      (c.Get "x-api-key" = "" ∨ c.Get "x-api-key" ≠ k2) →
      (APIKeyAuth k2 next2 c log).log = (APIKeyAuth k next c log).log := by
  have key : ∀ (j : String) (n : Handler), (c.Get "x-api-key" = "" ∨ c.Get "x-api-key" ≠ j) →
      (APIKeyAuth j n c log).log = log ++ [⟨Level.warn,
        if c.Get "x-api-key" = "" then "Missing API key" else "Invalid API key",
        [Field.string "path" c.path, Field.string "ip" c.ip]⟩] := by
    intro j n h
    by_cases h0 : c.Get "x-api-key" = ""
    · simp [APIKeyAuth, h0]
    · have hj : c.Get "x-api-key" ≠ j := h.resolve_left h0
      simp [APIKeyAuth, h0, hj]
  refine ⟨⟨_, key k next hrej⟩, ?_⟩
  intro k2 next2 h2
  rw [key k2 next2 h2, key k next hrej]

/-- Witness for C17: a request with a wrong key, rejected under two secrets. -/
theorem APIKeyAuth_warning_witness :
    ((sampleCtx [("x-api-key", "wrong-key")]).Get "x-api-key" = "" ∨
      (sampleCtx [("x-api-key", "wrong-key")]).Get "x-api-key" ≠ "secret-one") ∧
    ((sampleCtx [("x-api-key", "wrong-key")]).Get "x-api-key" = "" ∨
      (sampleCtx [("x-api-key", "wrong-key")]).Get "x-api-key" ≠ "secret-two") ∧
    (APIKeyAuth "secret-two" (returning GoError.nil) (sampleCtx [("x-api-key", "wrong-key")])
      []).log
      = (APIKeyAuth "secret-one" (returning GoError.nil)
          (sampleCtx [("x-api-key", "wrong-key")]) []).log :=
  ⟨Or.inr (by decide), Or.inr (by decide),
    (APIKeyAuth_warning "secret-one" (returning GoError.nil)
      (sampleCtx [("x-api-key", "wrong-key")]) [] (Or.inr (by decide))).2 "secret-two"
      (returning GoError.nil) (Or.inr (by decide))⟩

/-! ## Theorems: request logging -/

/-- The three cases of `LoggingMiddleware`: when a string is stored in the local
`"requestID"`, it adds its entry and runs the next handler; when nothing is
stored there, or a value that is no string, the type assertion fails and it
panics with a runtime error, without a log entry and without running the next
handler. -/
theorem LoggingMiddleware_cases (next : Handler) (c : Ctx) (log : List LogEntry) :
    (∀ id, c.Locals "requestID" = some (LocalValue.str id) →
      LoggingMiddleware next c log = next c (log ++ [⟨Level.info, "HTTP request",
        [Field.string "method" c.method, Field.string "path" c.path,
         Field.string "ip" c.ip, Field.string "requestID" id]⟩])) ∧
    (c.Locals "requestID" = none →
      LoggingMiddleware next c log =
        { ctx := c, log := log,
          result := Completion.panicked (PanicValue.error (GoError.other
            "interface conversion: interface \x7b\x7d is nil, not string")) }) ∧
    (∀ shown, c.Locals "requestID" = some (LocalValue.nonString shown) →
      ∃ v, LoggingMiddleware next c log = ⟨c, log, Completion.panicked v⟩) := by
  refine ⟨?_, ?_, ?_⟩
  · intro id h
    simp [LoggingMiddleware, h]
  · intro h
    simp [LoggingMiddleware, h]
  · intro shown h
    exact ⟨PanicValue.error (GoError.other
      ("interface conversion: interface \x7b\x7d is " ++ shown ++ ", not string")),
      by simp [LoggingMiddleware, h]⟩

/-- C18 (failing input): on a request on which no request identifier has been
stored, the type assertion of `LoggingMiddleware` fails: it panics with a
runtime error, logs nothing and does not run the next handler, instead of
adding its entry and forwarding. -/
theorem LoggingMiddleware_panics_without_request_id :
    ({ (sampleCtx []) with locals := [] } : Ctx).Locals "requestID" = none ∧
    LoggingMiddleware (returning GoError.nil) { (sampleCtx []) with locals := [] } []
      = { ctx := { (sampleCtx []) with locals := [] }, log := [],
          result := Completion.panicked (PanicValue.error (GoError.other
            "interface conversion: interface \x7b\x7d is nil, not string")) } ∧
    LoggingMiddleware (returning GoError.nil) { (sampleCtx []) with locals := [] } []
      ≠ returning GoError.nil { (sampleCtx []) with locals := [] }
          [⟨Level.info, "HTTP request", [Field.string "method" "GET",
            Field.string "path" "/api/users", Field.string "ip" "10.0.0.7",
            Field.string "requestID" ""]⟩] :=
  ⟨rfl,
    (LoggingMiddleware_cases (returning GoError.nil) { (sampleCtx []) with locals := [] } []).2.1
      rfl,
    by decide⟩

/-! ## Theorems: allowed origins -/

/-- Splitting never gives an empty list of pieces. -/
theorem splitChars_ne_nil (sep : Char) (chars : List Char) : splitChars sep chars ≠ [] := by
  cases chars with
  | nil => simp [splitChars]
  | cons ch rest =>
    by_cases h : ch = sep
    · simp [splitChars, h]
    · cases hr : splitChars sep rest <;> simp [splitChars, h, hr]

/-- The call `strings.Split` never returns an empty slice. -/
theorem Split_ne_nil (s : String) (sep : Char) : Split s sep ≠ [] := by
  simp [Split, splitChars_ne_nil]

/-- A configuration returned by `Load` has the allowed origins split from the
variable `ALLOWED_ORIGINS`, or from `*` in its place. -/
theorem Load_AllowedOrigins_eq (parseDuration : String → Option Int) (env : Env) (cfg : Config)
    (h : Load parseDuration env = LoadResult.loaded cfg) :
    cfg.CORS.AllowedOrigins = Split (getEnv env "ALLOWED_ORIGINS" "*") ',' := by
  unfold Load at h
  split at h
  · cases h
  · split at h
    · cases h
    · split at h
      · cases h
      · dsimp only at h
        split at h
        · cases h
          rfl
        · cases h

/-- C19: for every environment, whatever `ALLOWED_ORIGINS` is (unset, empty or
any string): the list that `Load` builds for `AllowedOrigins` is not empty; in
a configuration that `Load` returns, the index expression
`cfg.CORS.AllowedOrigins[0]` of `setupMiddleware` is in bounds; and when the
variable is unset or empty that first element is `*`. -/
theorem Load_AllowedOrigins_first (parseDuration : String → Option Int) (env : Env) :
    Split (getEnv env "ALLOWED_ORIGINS" "*") ',' ≠ [] ∧
    ∀ cfg, Load parseDuration env = LoadResult.loaded cfg →
      cfg.CORS.AllowedOrigins ≠ [] ∧
      ∃ first, corsAllowOrigins cfg = some first ∧
        (env.lookup "ALLOWED_ORIGINS" = none ∨ env.lookup "ALLOWED_ORIGINS" = some "" →
          first = "*") := by
  refine ⟨Split_ne_nil _ _, ?_⟩
  intro cfg h
  have heq := Load_AllowedOrigins_eq parseDuration env cfg h
  have hne : cfg.CORS.AllowedOrigins ≠ [] := by
    rw [heq]
    exact Split_ne_nil _ _
  refine ⟨hne, ?_⟩
  cases hl : cfg.CORS.AllowedOrigins with
  | nil => exact absurd hl hne
  | cons first rest =>
    refine ⟨first, by simp [corsAllowOrigins, hl], ?_⟩
    intro hunset
    have hget : Getenv env "ALLOWED_ORIGINS" = "" := by
      rcases hunset with h0 | h0 <;> simp [Getenv, h0]
    have hstar : Split (getEnv env "ALLOWED_ORIGINS" "*") ',' = ["*"] := by
      simp [getEnv, hget]
      decide
    rw [heq, hstar] at hl
    simp only [List.cons.injEq] at hl
    exact hl.1.symm

/-- Witness for C19: the environment of `TestLoad`, without `ALLOWED_ORIGINS`. -/
theorem Load_AllowedOrigins_first_witness :
    ∃ cfg, Load (fun _ => none) [("DSN", "test:test@tcp(localhost:3306)/test"),
        ("JWT_SECRET", "test-secret-key-12345"), ("API_KEY", "test-api-key-12345")]
      = LoadResult.loaded cfg ∧
    cfg.CORS.AllowedOrigins ≠ [] ∧ corsAllowOrigins cfg = some "*" :=
  ⟨_, rfl,
    ((Load_AllowedOrigins_first (fun _ => none) [("DSN", "test:test@tcp(localhost:3306)/test"),
      ("JWT_SECRET", "test-secret-key-12345"), ("API_KEY", "test-api-key-12345")]).2 _ rfl).1,
    rfl⟩

end Pipeline
